import Mathlib

/-!
Verification of the `subnet-dpn-core` Redis coordination layer
(`src/services/redis.rs`): a shallow embedding of the typed record store,
the ordered-queue primitive, the change broadcaster and the composed
"publish-X" operations, together with the `DPNRedisKey` key-schema
resolver, and proofs of the behavioural properties claimed for them.

The external Redis store is modelled as explicit state: hash buckets,
sorted sets, bucket expiries and the list of broadcast messages, plus a
fault schedule (one `Bool` per external call; `true` = that call fails,
an empty schedule means every call succeeds).  Serialized JSON payloads
are modelled opaquely by the typed value they encode (`DynVal`);
`serde_json` round-trips these plain structs losslessly, and the one
place where serialization can genuinely fail (the generic `hset` payload)
is modelled by a caller-supplied serializer returning `Option`.
-/

/-- From `services/types.rs` (not in the staged sources; its fields are
exactly those constructed at `redis.rs` lines 290-294 and spec §3's
PeerRecord attributes). -/
structure PeerChangedInfo where
  uuid : String
  login_session_id : String
  ip_u32 : Nat
deriving DecidableEq, Repr

/-- From `services/types.rs`: the two peer-lifecycle event variants matched
in `publish_peer` (`redis.rs` lines 322-337). -/
inductive PeerChanged where
  | connected (info : PeerChangedInfo)
  | disconnected (info : PeerChangedInfo)
deriving DecidableEq, Repr

/-- Source `types/bandwidth.rs`: `UserBandwidthPrice`. -/
structure UserBandwidthPrice where
  user_addr : String
  rate_per_kb : Int
  rate_per_second : Int
deriving DecidableEq, Repr

/-- Source `types/task.rs`: `UserTask`. -/
structure UserTask where
  user_addr : String
deriving DecidableEq, Repr

/-- Source `types/connection.rs`: `ProxyAccData` (the account identifier is the
field `redis.rs` addresses as `pad.id`; `Duration` and `IpAddr` are
opaque value payloads here). -/
structure ProxyAccData where
  id : String
  username : String
  password : String
  ip_rotation_period_secs : Nat
  whitelist_ip_list : List String
deriving DecidableEq, Repr

/-- From `services/types.rs`: the four proxy-account event variants matched
in `publish_proxy_acc` (`redis.rs` lines 548-566). -/
inductive ProxyAccChanged where
  | created (pad : ProxyAccData)
  | updated (pad : ProxyAccData)
  | deleted (id : String)
  | refreshAll
deriving DecidableEq, Repr

/-- A serialized payload (stored hash value or broadcast message body),
modelled by the typed value it encodes. -/
inductive DynVal where
  | peerInfo (p : PeerChangedInfo)
  | price (p : UserBandwidthPrice)
  | task (t : UserTask)
  | proxyAcc (p : ProxyAccData)
  | peerEvent (e : PeerChanged)
  | proxyAccEvent (e : ProxyAccChanged)
deriving DecidableEq, Repr

/-- The external Redis store plus the broadcast log and the fault schedule
(one entry consumed per external call; `true` makes that call fail,
exhaustion means success). -/
structure RedisState where
  hashes : List ((String × String) × DynVal)
  zsets : List (String × List (Nat × Nat))
  expiries : List (String × Nat)
  published : List (String × DynVal)
  faults : List Bool
deriving DecidableEq, Repr

/-- An `anyhow::Error`: either a base failure message produced at the
failing call, or a wrapper added by a `map_err`/`anyhow!` call site. -/
inductive RediErr where
  | fail (msg : String)
  | tagged (tag : String) (e : RediErr)
deriving DecidableEq, Repr

/-- Outcome of a service call: `Ok`, `Err`, or a Rust panic
(`.unwrap()` on a failed serialization). -/
inductive Res (α : Type) where
  | ok (a : α)
  | err (e : RediErr)
  | panicked
deriving DecidableEq, Repr

def RedisState.takeFault (st : RedisState) : Bool × RedisState :=
  match st.faults with
  | [] => (false, st)
  | b :: rest => (b, { st with faults := rest })

/-- HSET on the bucket representation: drop any existing entry for the
field, then append the new one. -/
def hashSet (hs : List ((String × String) × DynVal)) (k f : String) (v : DynVal) :
    List ((String × String) × DynVal) :=
  hs.filter (fun e => !(e.1 == (k, f))) ++ [((k, f), v)]

def hashGet (hs : List ((String × String) × DynVal)) (k f : String) : Option DynVal :=
  (hs.find? (fun e => e.1 == (k, f))).map (·.2)

def hashDelField (hs : List ((String × String) × DynVal)) (k f : String) :
    List ((String × String) × DynVal) :=
  hs.filter (fun e => !(e.1 == (k, f)))

def hashDelBucket (hs : List ((String × String) × DynVal)) (k : String) :
    List ((String × String) × DynVal) :=
  hs.filter (fun e => !(e.1.1 == k))

/-- The (field, value) pairs of one bucket, in store order. -/
def bucketFields (hs : List ((String × String) × DynVal)) (k : String) :
    List (String × DynVal) :=
  (hs.filter (fun e => e.1.1 == k)).map (fun e => (e.1.2, e.2))

def zsetFields (zs : List (String × List (Nat × Nat))) (k : String) : List (Nat × Nat) :=
  ((zs.find? (fun e => e.1 == k)).map (·.2)).getD []

/-- ZADD member upsert: re-adding an existing member updates its score. -/
def zsetAdd (l : List (Nat × Nat)) (member score : Nat) : List (Nat × Nat) :=
  if l.any (fun e => e.1 == member) then
    l.map (fun e => if e.1 == member then (member, score) else e)
  else l ++ [(member, score)]

def zsetsSet (zs : List (String × List (Nat × Nat))) (k : String) (l : List (Nat × Nat)) :
    List (String × List (Nat × Nat)) :=
  zs.filter (fun e => !(e.1 == k)) ++ [(k, l)]

def expirySet (ex : List (String × Nat)) (k : String) (ttl : Nat) : List (String × Nat) :=
  ex.filter (fun e => !(e.1 == k)) ++ [(k, ttl)]

/-- Source `RedisService::hset` (redis.rs lines 100-116): get a connection,
serialize (`serde_json::to_string(&obj).unwrap()` — a failed serialization
panics), issue HSET.  `ser obj = none` models the serialization failing. -/
def RedisService.hset {α : Type} (ser : α → Option DynVal) (st : RedisState)
    (key field : String) (obj : α) : Res Unit × RedisState :=
  let (cf, st1) := st.takeFault
  if cf then (.err (.fail "cannot get connection"), st1)
  else
    match ser obj with
    | none => (.panicked, st1)
    | some v =>
      let (wf, st2) := st1.takeFault
      if wf then (.err (.fail "redis failed to insert"), st2)
      else (.ok (), { st2 with hashes := hashSet st2.hashes key field v })

/-- Source `RedisService::hset_with_ttl` (lines 118-140): HSET the field, then
EXPIRE the entire hash key. -/
def RedisService.hset_with_ttl {α : Type} (ser : α → Option DynVal) (st : RedisState)
    (key field : String) (obj : α) (ttl_seconds : Nat) : Res Unit × RedisState :=
  let (cf, st1) := st.takeFault
  if cf then (.err (.fail "cannot get connection"), st1)
  else
    match ser obj with
    | none => (.panicked, st1)
    | some v =>
      let (wf, st2) := st1.takeFault
      if wf then (.err (.fail "redis failed to insert"), st2)
      else
        let st3 := { st2 with hashes := hashSet st2.hashes key field v }
        let (ef, st4) := st3.takeFault
        if ef then (.err (.fail "redis failed to set expiration on key"), st4)
        else (.ok (), { st4 with expiries := expirySet st4.expiries key ttl_seconds })

/-- Source `RedisService::hget` (lines 142-156): an absent field surfaces as the
HGET error (nil does not convert to `String`), a present one is decoded. -/
def RedisService.hget {α : Type} (deser : DynVal → Option α) (st : RedisState)
    (key field : String) : Res α × RedisState :=
  let (cf, st1) := st.takeFault
  if cf then (.err (.fail "cannot get connection"), st1)
  else
    let (gf, st2) := st1.takeFault
    if gf then (.err (.fail "redis cannot get"), st2)
    else
      match hashGet st2.hashes key field with
      | none => (.err (.fail "redis cannot get"), st2)
      | some v =>
        match deser v with
        | none => (.err (.fail "redis failed to decode"), st2)
        | some t => (.ok t, st2)

/-- Decode every (field, value) pair of a bucket; the first value that does
not decode fails the whole enumeration (no partial result). -/
def decodeAll {α : Type} (deser : DynVal → Option α) :
    List (String × DynVal) → Option (List (String × α))
  | [] => some []
  | (f, v) :: rest =>
    match deser v with
    | none => none
    | some t => (decodeAll deser rest).map (fun l => (f, t) :: l)

/-- Source `RedisService::hgetall` (lines 158-176). -/
def RedisService.hgetall {α : Type} (deser : DynVal → Option α) (st : RedisState)
    (key : String) : Res (List (String × α)) × RedisState :=
  let (cf, st1) := st.takeFault
  if cf then (.err (.fail "cannot get connection"), st1)
  else
    let (gf, st2) := st1.takeFault
    if gf then (.err (.fail "redis cannot get"), st2)
    else
      match decodeAll deser (bucketFields st2.hashes key) with
      | none => (.err (.fail "redis failed to decode"), st2)
      | some rs => (.ok rs, st2)

/-- Source `RedisService::hdel` (lines 178-186). -/
def RedisService.hdel (st : RedisState) (key field : String) : Res Unit × RedisState :=
  let (cf, st1) := st.takeFault
  if cf then (.err (.fail "cannot get connection"), st1)
  else
    let (df, st2) := st1.takeFault
    if df then (.err (.fail "redis cannot hdel"), st2)
    else (.ok (), { st2 with hashes := hashDelField st2.hashes key field })

/-- Source `RedisService::zadd` (lines 188-200); note the source swaps the
argument order, so `value` is the member and `score` the score. -/
def RedisService.zadd (st : RedisState) (key : String) (score value : Nat) :
    Res Unit × RedisState :=
  let (cf, st1) := st.takeFault
  if cf then (.err (.fail "cannot get connection"), st1)
  else
    let (zf, st2) := st1.takeFault
    if zf then (.err (.fail "redis failed to insert peer into peer queue"), st2)
    else
      (.ok (), { st2 with
        zsets := zsetsSet st2.zsets key (zsetAdd (zsetFields st2.zsets key) value score) })

/-- Source `RedisService::zgetall` (lines 235-253): range-read the whole sorted
set — modelled as returning the entries in whatever order the store holds
them — then explicitly stable-sort ascending by score (`sort_by_key`). -/
def RedisService.zgetall (st : RedisState) (key : String) :
    Res (List (Nat × Nat)) × RedisState :=
  let (cf, st1) := st.takeFault
  if cf then (.err (.fail "cannot get connection"), st1)
  else
    let (zf, st2) := st1.takeFault
    if zf then (.err (.fail "redis failed to get peer queue"), st2)
    else
      (.ok (List.mergeSort (zsetFields st2.zsets key) (fun a b => decide (a.2 ≤ b.2))), st2)

/-- Source `RedisService::del` (lines 255-264): DEL removes the key whatever its
type, together with any expiry on it. -/
def RedisService.del (st : RedisState) (key : String) : Res Unit × RedisState :=
  let (cf, st1) := st.takeFault
  if cf then (.err (.fail "cannot get connection"), st1)
  else
    let (df, st2) := st1.takeFault
    if df then (.err (.fail "redis failed to delete key"), st2)
    else
      (.ok (), { st2 with
        hashes := hashDelBucket st2.hashes key,
        zsets := st2.zsets.filter (fun e => !(e.1 == key)),
        expiries := st2.expiries.filter (fun e => !(e.1 == key)) })

/-- Source `RedisService::publish` (lines 266-273): PUBLISH appends to the wire
log; the command error passes through untagged. -/
def RedisService.publish (st : RedisState) (chan_name : String) (obj : DynVal) :
    Res Unit × RedisState :=
  let (cf, st1) := st.takeFault
  if cf then (.err (.fail "cannot get connection"), st1)
  else
    let (pf, st2) := st1.takeFault
    if pf then (.err (.fail "redis publish command failed"), st2)
    else (.ok (), { st2 with published := st2.published ++ [(chan_name, obj)] })

/-- Source `DPNRedisKey` (redis.rs lines 587-692): the pure key-schema resolver.
Each resolver below is the source function of the same name. -/
def DPNRedisKey.get_geo_kf (masternode_id login_session_id : String) : String × String :=
  ("peer_geo", masternode_id ++ "_" ++ login_session_id)

def DPNRedisKey.get_balance_kf (user_addr : String) : String × String :=
  ("client_user_balance", user_addr)

def DPNRedisKey.get_peer_queue_k (masternode_id : String) : String :=
  "peer_queue_ms#" ++ masternode_id ++ "_"

def DPNRedisKey.get_peers_kf (masternode_id : String) (ip_u32 : Nat) : String × String :=
  ("peers_ms#" ++ masternode_id, Nat.repr ip_u32)

def DPNRedisKey.get_peers_chan (masternode_id : String) : String :=
  "peers_updated_ms#" ++ masternode_id

def DPNRedisKey.get_price_kf (peer_addr : String) : String × String :=
  ("peer_price", peer_addr)

def DPNRedisKey.get_proxy_acc_kf (id : String) : String × String :=
  ("proxy_acc", id)

def DPNRedisKey.get_uptime_xp_kf (id : String) : String × String :=
  ("uptime_xp", id)

def DPNRedisKey.get_proxy_acc_chan : String := "proxy_acc_updated"

def DPNRedisKey.get_price_chan : String := "price_updated"

def DPNRedisKey.get_bonus_config_hash_key : String := "bonus_config"

def DPNRedisKey.get_first_time_provider_kf (id : String) : String × String :=
  ("first_time_provider", id)

def DPNRedisKey.get_first_time_provider_chan : String := "first_time_provider_updated"

def DPNRedisKey.get_withdrawal_reward_kf (id : String) : String × String :=
  ("withdrawal_reward", id)

def DPNRedisKey.get_withdrawal_reward_chan : String := "withdrawal_reward_updated"

def DPNRedisKey.get_completed_8_hours_ot_kf (id : String) : String × String :=
  ("completed_8_hours_ot", id)

def DPNRedisKey.get_completed_8_hours_ot_chan : String := "completed_8_hours_dl_updated"

def DPNRedisKey.get_invite_friend_one_time_kf (id : String) : String × String :=
  ("invite_friend_one_time", id)

def DPNRedisKey.get_invite_friend_one_time_chan : String := "invite_friend_one_time_updated"

def DPNRedisKey.get_completed_time_per_day_kf (id : String) : String × String :=
  ("completed_time_per_day", id)

def DPNRedisKey.get_completed_time_per_day_chan : String := "completed_time_per_day_updated"

def DPNRedisKey.get_user_addr_geo_kf (user_addr : String) : String × String :=
  ("user_addr_geo", user_addr)

/-- Serialization via `serde_json::to_string` on these plain structs cannot fail. -/
def serPeerInfo : PeerChangedInfo → Option DynVal := fun p => some (.peerInfo p)

def serPrice : UserBandwidthPrice → Option DynVal := fun p => some (.price p)

def serTask : UserTask → Option DynVal := fun t => some (.task t)

def serProxyAcc : ProxyAccData → Option DynVal := fun p => some (.proxyAcc p)

def deserPeerInfo : DynVal → Option PeerChangedInfo
  | .peerInfo p => some p
  | _ => none

def deserPrice : DynVal → Option UserBandwidthPrice
  | .price p => some p
  | _ => none

def deserProxyAcc : DynVal → Option ProxyAccData
  | .proxyAcc p => some p
  | _ => none

/-- Source `RedisService::publish_peer` (lines 317-355): mutate the peer record
for the event variant (HSET on Connected, HDEL on Disconnected), then
broadcast the serialized event on the node's peer channel. -/
def RedisService.publish_peer (st : RedisState) (masternode_id : String)
    (status : PeerChanged) : Res Unit × RedisState :=
  let mutated : Res Unit × RedisState :=
    match status with
    | .connected info =>
      let kf := DPNRedisKey.get_peers_kf masternode_id info.ip_u32
      match RedisService.hset serPeerInfo st kf.1 kf.2 info with
      | (.ok _, st1) => (.ok (), st1)
      | (.err e, st1) => (.err (.tagged "redis peer add failed" e), st1)
      | (.panicked, st1) => (.panicked, st1)
    | .disconnected info =>
      let kf := DPNRedisKey.get_peers_kf masternode_id info.ip_u32
      match RedisService.hdel st kf.1 kf.2 with
      | (.ok _, st1) => (.ok (), st1)
      | (.err e, st1) => (.err (.tagged "redis peer removal failed" e), st1)
      | (.panicked, st1) => (.panicked, st1)
  match mutated with
  | (.ok _, st1) =>
    match RedisService.publish st1 (DPNRedisKey.get_peers_chan masternode_id)
        (.peerEvent status) with
    | (.ok _, st2) => (.ok (), st2)
    | (.err e, st2) => (.err (.tagged "redis peer status publish failed" e), st2)
    | (.panicked, st2) => (.panicked, st2)
  | other => other

/-- The loop body of `remove_all_peers` (lines 288-310): for each record,
synthesize a `Disconnected` event from its fields and broadcast it;
the first failed broadcast returns immediately. -/
def removeAllPeersLoop (masternode_id : String) :
    RedisState → List (String × PeerChangedInfo) → Res Unit × RedisState
  | st, [] => (.ok (), st)
  | st, (_, change) :: rest =>
    let ev := PeerChanged.disconnected
      { uuid := change.uuid, login_session_id := change.login_session_id,
        ip_u32 := change.ip_u32 }
    match RedisService.publish st (DPNRedisKey.get_peers_chan masternode_id)
        (.peerEvent ev) with
    | (.ok _, st1) => removeAllPeersLoop masternode_id st1 rest
    | (.err e, st1) => (.err (.tagged "redis peer status publish failed" e), st1)
    | (.panicked, st1) => (.panicked, st1)

/-- Source `RedisService::remove_all_peers` (lines 281-315): enumerate the node's
bucket, broadcast a synthetic `Disconnected` per record, then delete the
whole bucket. -/
def RedisService.remove_all_peers (st : RedisState) (masternode_id : String) :
    Res Unit × RedisState :=
  let k := (DPNRedisKey.get_peers_kf masternode_id 0).1
  match RedisService.hgetall deserPeerInfo st k with
  | (.ok peers, st1) =>
    match removeAllPeersLoop masternode_id st1 peers with
    | (.ok _, st2) =>
      match RedisService.del st2 k with
      | (.ok _, st3) => (.ok (), st3)
      | (.err e, st3) => (.err (.tagged "failed to remove peers from redis" e), st3)
      | (.panicked, st3) => (.panicked, st3)
    | other => other
  | (.err e, st1) => (.err (.tagged "redis get peers failed" e), st1)
  | (.panicked, st1) => (.panicked, st1)

/-- Source `RedisService::get_peers` (lines 357-367). -/
def RedisService.get_peers (st : RedisState) (masternode_id : String) :
    Res (List PeerChangedInfo) × RedisState :=
  let k := (DPNRedisKey.get_peers_kf masternode_id 0).1
  match RedisService.hgetall deserPeerInfo st k with
  | (.ok peers, st1) => (.ok (peers.map (·.2)), st1)
  | (.err e, st1) => (.err (.tagged "redis get peers failed" e), st1)
  | (.panicked, st1) => (.panicked, st1)

/-- Source `RedisService::publish_peer_price` (lines 369-392). -/
def RedisService.publish_peer_price (st : RedisState) (price : UserBandwidthPrice) :
    Res Unit × RedisState :=
  let kf := DPNRedisKey.get_price_kf price.user_addr
  match RedisService.hset serPrice st kf.1 kf.2 price with
  | (.ok _, st1) =>
    match RedisService.publish st1 DPNRedisKey.get_price_chan (.price price) with
    | (.ok _, st2) => (.ok (), st2)
    | (.err e, st2) => (.err (.tagged "redis peer status publish failed" e), st2)
    | (.panicked, st2) => (.panicked, st2)
  | (.err e, st1) => (.err (.tagged "redis set peer price failed" e), st1)
  | (.panicked, st1) => (.panicked, st1)

/-- Source `RedisService::publish_first_time_provider` (lines 394-416). -/
def RedisService.publish_first_time_provider (st : RedisState) (provider : UserTask) :
    Res Unit × RedisState :=
  let kf := DPNRedisKey.get_first_time_provider_kf provider.user_addr
  match RedisService.hset serTask st kf.1 kf.2 provider with
  | (.ok _, st1) =>
    match RedisService.publish st1 DPNRedisKey.get_first_time_provider_chan
        (.task provider) with
    | (.ok _, st2) => (.ok (), st2)
    | (.err e, st2) => (.err (.tagged "redis first time provider publish failed" e), st2)
    | (.panicked, st2) => (.panicked, st2)
  | (.err e, st1) => (.err (.tagged "redis set first time provider failed" e), st1)
  | (.panicked, st1) => (.panicked, st1)

/-- Source `RedisService::publish_withdrawal_reward` (lines 418-440); the publish
failure tag is the source's own copy-pasted message. -/
def RedisService.publish_withdrawal_reward (st : RedisState) (provider : UserTask) :
    Res Unit × RedisState :=
  let kf := DPNRedisKey.get_withdrawal_reward_kf provider.user_addr
  match RedisService.hset serTask st kf.1 kf.2 provider with
  | (.ok _, st1) =>
    match RedisService.publish st1 DPNRedisKey.get_withdrawal_reward_chan
        (.task provider) with
    | (.ok _, st2) => (.ok (), st2)
    | (.err e, st2) => (.err (.tagged "redis first time provider publish failed" e), st2)
    | (.panicked, st2) => (.panicked, st2)
  | (.err e, st1) => (.err (.tagged "redis set withdrawal reward failed" e), st1)
  | (.panicked, st1) => (.panicked, st1)

/-- Source `RedisService::publish_completed_8_hours_ot` (lines 442-464). -/
def RedisService.publish_completed_8_hours_ot (st : RedisState) (provider : UserTask) :
    Res Unit × RedisState :=
  let kf := DPNRedisKey.get_completed_8_hours_ot_kf provider.user_addr
  match RedisService.hset serTask st kf.1 kf.2 provider with
  | (.ok _, st1) =>
    match RedisService.publish st1 DPNRedisKey.get_completed_8_hours_ot_chan
        (.task provider) with
    | (.ok _, st2) => (.ok (), st2)
    | (.err e, st2) => (.err (.tagged "redis completed 8 hours ot publish failed" e), st2)
    | (.panicked, st2) => (.panicked, st2)
  | (.err e, st1) => (.err (.tagged "redis set completed 8 hours ot failed" e), st1)
  | (.panicked, st1) => (.panicked, st1)

/-- Source `RedisService::publish_invite_friend_one_time` (lines 468-485):
broadcast only, no record write. -/
def RedisService.publish_invite_friend_one_time (st : RedisState) (provider : UserTask) :
    Res Unit × RedisState :=
  match RedisService.publish st DPNRedisKey.get_invite_friend_one_time_chan
      (.task provider) with
  | (.ok _, st1) => (.ok (), st1)
  | (.err e, st1) => (.err (.tagged "redis invite friend one time publish failed" e), st1)
  | (.panicked, st1) => (.panicked, st1)

/-- Source `RedisService::publish_completed_time_per_day` (lines 487-501): the HSET
failure is tagged and propagated, but the broadcast result is returned
as-is (no `map_err` around the publish, unlike the sibling methods). -/
def RedisService.publish_completed_time_per_day (st : RedisState) (provider : UserTask) :
    Res Unit × RedisState :=
  let kf := DPNRedisKey.get_completed_time_per_day_kf provider.user_addr
  match RedisService.hset serTask st kf.1 kf.2 provider with
  | (.ok _, st1) =>
    RedisService.publish st1 DPNRedisKey.get_completed_time_per_day_chan (.task provider)
  | (.err e, st1) => (.err (.tagged "redis set completed time per day failed" e), st1)
  | (.panicked, st1) => (.panicked, st1)

/-- Source `RedisService::get_peers_price` (lines 503-513): enumerate the constant
price bucket, resolved with the empty-string identifier. -/
def RedisService.get_peers_price (st : RedisState) :
    Res (List UserBandwidthPrice) × RedisState :=
  let k := (DPNRedisKey.get_price_kf "").1
  match RedisService.hgetall deserPrice st k with
  | (.ok peers, st1) => (.ok (peers.map (·.2)), st1)
  | (.err e, st1) => (.err (.tagged "redis get peers price failed" e), st1)
  | (.panicked, st1) => (.panicked, st1)

/-- Source `RedisService::get_proxy_accs` (lines 515-522). -/
def RedisService.get_proxy_accs (st : RedisState) :
    Res (List ProxyAccData) × RedisState :=
  let k := (DPNRedisKey.get_proxy_acc_kf "").1
  match RedisService.hgetall deserProxyAcc st k with
  | (.ok accs, st1) => (.ok (accs.map (·.2)), st1)
  | (.err e, st1) => (.err (.tagged "redis get proxy accs failed" e), st1)
  | (.panicked, st1) => (.panicked, st1)

/-- Source `RedisService::remove_all_proxy_accs` (lines 527-532): plain bucket
delete, no per-entry broadcast; the error tag is the source's own
copy-pasted message. -/
def RedisService.remove_all_proxy_accs (st : RedisState) : Res Unit × RedisState :=
  let k := (DPNRedisKey.get_proxy_acc_kf "").1
  match RedisService.del st k with
  | (.ok _, st1) => (.ok (), st1)
  | (.err e, st1) => (.err (.tagged "failed to remove peers from redis" e), st1)
  | (.panicked, st1) => (.panicked, st1)

/-- Source `RedisService::remove_all_withdrawal_reward` (lines 537-542). -/
def RedisService.remove_all_withdrawal_reward (st : RedisState) : Res Unit × RedisState :=
  let k := (DPNRedisKey.get_withdrawal_reward_kf "").1
  match RedisService.del st k with
  | (.ok _, st1) => (.ok (), st1)
  | (.err e, st1) => (.err (.tagged "failed to remove withdrawal reward from redis" e), st1)
  | (.panicked, st1) => (.panicked, st1)

/-- Source `RedisService::publish_proxy_acc` (lines 544-584): mutate per variant
(`Created`/`Updated` HSET, `Deleted` HDEL, `RefreshAll` nothing), then
broadcast on the global proxy-account channel.  The per-variant `map_err`
is `anyhow!("{}", e)`: a wrapper adding no text of its own. -/
def RedisService.publish_proxy_acc (st : RedisState)
    (proxy_acc_changed : ProxyAccChanged) : Res Unit × RedisState :=
  let mutated : Res Unit × RedisState :=
    match proxy_acc_changed with
    | .created pad =>
      let kf := DPNRedisKey.get_proxy_acc_kf pad.id
      match RedisService.hset serProxyAcc st kf.1 kf.2 pad with
      | (.ok _, st1) => (.ok (), st1)
      | (.err e, st1) => (.err (.tagged "" e), st1)
      | (.panicked, st1) => (.panicked, st1)
    | .updated pad =>
      let kf := DPNRedisKey.get_proxy_acc_kf pad.id
      match RedisService.hset serProxyAcc st kf.1 kf.2 pad with
      | (.ok _, st1) => (.ok (), st1)
      | (.err e, st1) => (.err (.tagged "" e), st1)
      | (.panicked, st1) => (.panicked, st1)
    | .deleted id =>
      let kf := DPNRedisKey.get_proxy_acc_kf id
      match RedisService.hdel st kf.1 kf.2 with
      | (.ok _, st1) => (.ok (), st1)
      | (.err e, st1) => (.err (.tagged "" e), st1)
      | (.panicked, st1) => (.panicked, st1)
    | .refreshAll => (.ok (), st)
  match mutated with
  | (.ok _, st1) =>
    match RedisService.publish st1 DPNRedisKey.get_proxy_acc_chan
        (.proxyAccEvent proxy_acc_changed) with
    | (.ok _, st2) => (.ok (), st2)
    | (.err e, st2) => (.err (.tagged "redis proxy acc publish failed" e), st2)
    | (.panicked, st2) => (.panicked, st2)
  | other => other

/-! Helper lemmas: decimal rendering (`Nat.repr`) is injective, and
underscore-joined strings split uniquely when the left part is
underscore-free.  Both are needed for the key-schema collision claims. -/

def digitVal (c : Char) : Nat := c.toNat - 48

/-- Value of a most-significant-first digit string. -/
def evalDigits (l : List Char) : Nat := l.foldl (fun a c => 10 * a + digitVal c) 0

theorem digitVal_digitChar : ∀ d : Nat, d < 10 → digitVal (Nat.digitChar d) = d := by
  decide

theorem toDigitsCore_append (fuel : Nat) :
    ∀ (n : Nat) (ds : List Char),
      Nat.toDigitsCore 10 fuel n ds = Nat.toDigitsCore 10 fuel n [] ++ ds := by
  induction fuel with
  | zero => intro n ds; rfl
  | succ fuel ih =>
    intro n ds
    simp only [Nat.toDigitsCore]
    by_cases h : n / 10 = 0
    · simp [h]
    · simp only [h, if_false]
      rw [ih (n / 10) (Nat.digitChar (n % 10) :: ds), ih (n / 10) [Nat.digitChar (n % 10)]]
      simp

theorem evalDigits_toDigitsCore (fuel : Nat) :
    ∀ n : Nat, n < 10 ^ fuel → evalDigits (Nat.toDigitsCore 10 fuel n []) = n := by
  induction fuel with
  | zero =>
    intro n h
    interval_cases n
    rfl
  | succ fuel ih =>
    intro n h
    simp only [Nat.toDigitsCore]
    by_cases h0 : n / 10 = 0
    · have hn : n < 10 := by omega
      simp only [h0, if_true, evalDigits, List.foldl]
      rw [Nat.mod_eq_of_lt hn]
      simp [digitVal_digitChar n hn]
    · simp only [h0, if_false]
      rw [toDigitsCore_append]
      have h1 : n / 10 < 10 ^ fuel := by
        rw [Nat.div_lt_iff_lt_mul (by norm_num)]
        calc n < 10 ^ (fuel + 1) := h
          _ = 10 ^ fuel * 10 := by ring
      have hmod : n % 10 < 10 := Nat.mod_lt n (by norm_num)
      simp only [evalDigits, List.foldl_append, List.foldl]
      have := ih (n / 10) h1
      simp only [evalDigits] at this
      rw [this, digitVal_digitChar (n % 10) hmod]
      omega

theorem evalDigits_repr (n : Nat) : evalDigits (Nat.toDigits 10 n) = n := by
  have hlt : n < 10 ^ (n + 1) := by
    calc n < 2 ^ n := Nat.lt_two_pow n
      _ ≤ 10 ^ n := Nat.pow_le_pow_left (by norm_num) n
      _ ≤ 10 ^ (n + 1) := Nat.pow_le_pow_right (by norm_num) (Nat.le_succ n)
  exact evalDigits_toDigitsCore (n + 1) n hlt

theorem natRepr_injective : Function.Injective Nat.repr := by
  intro m n h
  have hd : Nat.toDigits 10 m = Nat.toDigits 10 n := by
    have := congrArg String.data h
    simpa [Nat.repr, List.asString] using this
  calc m = evalDigits (Nat.toDigits 10 m) := (evalDigits_repr m).symm
    _ = evalDigits (Nat.toDigits 10 n) := by rw [hd]
    _ = n := evalDigits_repr n

theorem append_underscore_inj :
    ∀ (a : List Char) {b : List Char} (c : List Char) {d : List Char},
      '_' ∉ a → '_' ∉ c → a ++ '_' :: b = c ++ '_' :: d → a = c ∧ b = d := by
  intro a
  induction a with
  | nil =>
    intro b c d _ hc h
    cases c with
    | nil => simpa using h
    | cons y c =>
      simp only [List.nil_append, List.cons_append, List.cons.injEq] at h
      exact absurd (by rw [h.1]; exact List.mem_cons_self y c) hc
  | cons x a ih =>
    intro b c d ha hc h
    cases c with
    | nil =>
      simp only [List.cons_append, List.nil_append, List.cons.injEq] at h
      exact absurd (by rw [← h.1]; exact List.mem_cons_self x a) ha
    | cons y c =>
      simp only [List.cons_append, List.cons.injEq] at h
      obtain ⟨hxy, htail⟩ := h
      have := ih c (by simp at ha; exact ha.2) (by simp at hc; exact hc.2) htail
      exact ⟨by simp [hxy, this.1], this.2⟩

theorem string_append_left_cancel {p a b : String} (h : p ++ a = p ++ b) : a = b := by
  have := congrArg String.data h
  simp only [String.data_append] at this
  have := List.append_cancel_left this
  cases a; cases b; exact congrArg String.mk this

/-! Component lemmas about the primitive service calls, used to compose
the claim proofs. -/

theorem publish_cases (st : RedisState) (c : String) (v : DynVal) :
    ((RedisService.publish st c v).1 = .ok ()
        ∧ (RedisService.publish st c v).2.published = st.published ++ [(c, v)])
    ∨ ((∃ e, (RedisService.publish st c v).1 = .err e)
        ∧ (RedisService.publish st c v).2.published = st.published) := by
  rcases st with ⟨hs, zs, ex, pb, fs⟩
  rcases fs with _ | ⟨b1, fs⟩
  · exact .inl ⟨rfl, rfl⟩
  · cases b1
    · rcases fs with _ | ⟨b2, fs⟩
      · exact .inl ⟨rfl, rfl⟩
      · cases b2
        · exact .inl ⟨rfl, rfl⟩
        · exact .inr ⟨⟨_, rfl⟩, rfl⟩
    · exact .inr ⟨⟨_, rfl⟩, rfl⟩

theorem publish_hashes (st : RedisState) (c : String) (v : DynVal) :
    (RedisService.publish st c v).2.hashes = st.hashes := by
  rcases st with ⟨hs, zs, ex, pb, fs⟩
  rcases fs with _ | ⟨b1, fs⟩
  · rfl
  · cases b1
    · rcases fs with _ | ⟨b2, fs⟩
      · rfl
      · cases b2 <;> rfl
    · rfl

theorem publish_zsets (st : RedisState) (c : String) (v : DynVal) :
    (RedisService.publish st c v).2.zsets = st.zsets := by
  rcases st with ⟨hs, zs, ex, pb, fs⟩
  rcases fs with _ | ⟨b1, fs⟩
  · rfl
  · cases b1
    · rcases fs with _ | ⟨b2, fs⟩
      · rfl
      · cases b2 <;> rfl
    · rfl

theorem publish_expiries (st : RedisState) (c : String) (v : DynVal) :
    (RedisService.publish st c v).2.expiries = st.expiries := by
  rcases st with ⟨hs, zs, ex, pb, fs⟩
  rcases fs with _ | ⟨b1, fs⟩
  · rfl
  · cases b1
    · rcases fs with _ | ⟨b2, fs⟩
      · rfl
      · cases b2 <;> rfl
    · rfl

theorem publish_not_panicked (st : RedisState) (c : String) (v : DynVal) :
    (RedisService.publish st c v).1 ≠ .panicked := by
  rcases st with ⟨hs, zs, ex, pb, fs⟩
  rcases fs with _ | ⟨b1, fs⟩
  · simp [RedisService.publish, RedisState.takeFault]
  · cases b1
    · rcases fs with _ | ⟨b2, fs⟩
      · simp [RedisService.publish, RedisState.takeFault]
      · cases b2 <;> simp [RedisService.publish, RedisState.takeFault]
    · simp [RedisService.publish, RedisState.takeFault]

theorem publish_ok_state (st : RedisState) (c : String) (v : DynVal) (st' : RedisState)
    (h : (RedisService.publish st c v) = (.ok (), st')) :
    st'.published = st.published ++ [(c, v)] ∧ st'.hashes = st.hashes := by
  rcases publish_cases st c v with ⟨_, hpub⟩ | ⟨⟨e, he⟩, _⟩
  · rw [h] at hpub
    exact ⟨hpub, by rw [← publish_hashes st c v, h]⟩
  · rw [h] at he
    cases he

theorem publish_err_state (st : RedisState) (c : String) (v : DynVal) (e : RediErr)
    (st' : RedisState) (h : (RedisService.publish st c v) = (.err e, st')) :
    st'.published = st.published ∧ st'.hashes = st.hashes := by
  rcases publish_cases st c v with ⟨hok, _⟩ | ⟨_, hpub⟩
  · rw [h] at hok
    cases hok
  · rw [h] at hpub
    exact ⟨hpub, by rw [← publish_hashes st c v, h]⟩

theorem hset_published {α : Type} (ser : α → Option DynVal) (st : RedisState)
    (k f : String) (o : α) :
    (RedisService.hset ser st k f o).2.published = st.published := by
  rcases st with ⟨hs, zs, ex, pb, fs⟩
  rcases fs with _ | ⟨b1, fs⟩
  · cases h : ser o <;> simp [RedisService.hset, RedisState.takeFault, h]
  · cases b1
    · cases h : ser o
      · simp [RedisService.hset, RedisState.takeFault, h]
      · rcases fs with _ | ⟨b2, fs⟩
        · simp [RedisService.hset, RedisState.takeFault, h]
        · cases b2 <;> simp [RedisService.hset, RedisState.takeFault, h]
    · simp [RedisService.hset, RedisState.takeFault]

theorem hdel_published (st : RedisState) (k f : String) :
    (RedisService.hdel st k f).2.published = st.published := by
  rcases st with ⟨hs, zs, ex, pb, fs⟩
  rcases fs with _ | ⟨b1, fs⟩
  · rfl
  · cases b1
    · rcases fs with _ | ⟨b2, fs⟩
      · rfl
      · cases b2 <;> rfl
    · rfl

theorem hset_ok_hashes {α : Type} (ser : α → Option DynVal) (st : RedisState)
    (k f : String) (o : α) (st' : RedisState)
    (h : RedisService.hset ser st k f o = (.ok (), st')) :
    ∃ v, ser o = some v ∧ st'.hashes = hashSet st.hashes k f v := by
  rcases st with ⟨hs, zs, ex, pb, fs⟩
  rcases fs with _ | ⟨b1, fs⟩
  · cases hso : ser o with
    | none => simp [RedisService.hset, RedisState.takeFault, hso] at h
    | some v =>
      refine ⟨v, rfl, ?_⟩
      simp [RedisService.hset, RedisState.takeFault, hso] at h
      simp [← h]
  · cases b1
    · cases hso : ser o with
      | none => simp [RedisService.hset, RedisState.takeFault, hso] at h
      | some v =>
        rcases fs with _ | ⟨b2, fs⟩
        · refine ⟨v, rfl, ?_⟩
          simp [RedisService.hset, RedisState.takeFault, hso] at h
          simp [← h]
        · cases b2
          · refine ⟨v, rfl, ?_⟩
            simp [RedisService.hset, RedisState.takeFault, hso] at h
            simp [← h]
          · simp [RedisService.hset, RedisState.takeFault, hso] at h
    · simp [RedisService.hset, RedisState.takeFault] at h

theorem hdel_ok_hashes (st : RedisState) (k f : String) (st' : RedisState)
    (h : RedisService.hdel st k f = (.ok (), st')) :
    st'.hashes = hashDelField st.hashes k f := by
  rcases st with ⟨hs, zs, ex, pb, fs⟩
  rcases fs with _ | ⟨b1, fs⟩
  · simp [RedisService.hdel, RedisState.takeFault] at h
    simp [← h]
  · cases b1
    · rcases fs with _ | ⟨b2, fs⟩
      · simp [RedisService.hdel, RedisState.takeFault] at h
        simp [← h]
      · cases b2
        · simp [RedisService.hdel, RedisState.takeFault] at h
          simp [← h]
        · simp [RedisService.hdel, RedisState.takeFault] at h
    · simp [RedisService.hdel, RedisState.takeFault] at h

theorem hgetall_state {α : Type} (deser : DynVal → Option α) (st : RedisState)
    (k : String) :
    (RedisService.hgetall deser st k).2.hashes = st.hashes
    ∧ (RedisService.hgetall deser st k).2.published = st.published := by
  rcases st with ⟨hs, zs, ex, pb, fs⟩
  rcases fs with _ | ⟨b1, fs⟩
  · cases h : decodeAll deser (bucketFields hs k) <;>
      simp [RedisService.hgetall, RedisState.takeFault, h]
  · cases b1
    · rcases fs with _ | ⟨b2, fs⟩
      · cases h : decodeAll deser (bucketFields hs k) <;>
          simp [RedisService.hgetall, RedisState.takeFault, h]
      · cases b2
        · cases h : decodeAll deser (bucketFields hs k) <;>
            simp [RedisService.hgetall, RedisState.takeFault, h]
        · simp [RedisService.hgetall, RedisState.takeFault]
    · simp [RedisService.hgetall, RedisState.takeFault]

theorem del_err_state (st : RedisState) (k : String) (e : RediErr) (st' : RedisState)
    (h : RedisService.del st k = (.err e, st')) :
    st'.hashes = st.hashes ∧ st'.published = st.published := by
  rcases st with ⟨hs, zs, ex, pb, fs⟩
  rcases fs with _ | ⟨b1, fs⟩
  · simp [RedisService.del, RedisState.takeFault] at h
  · cases b1
    · rcases fs with _ | ⟨b2, fs⟩
      · simp [RedisService.del, RedisState.takeFault] at h
      · cases b2
        · simp [RedisService.del, RedisState.takeFault] at h
        · simp [RedisService.del, RedisState.takeFault] at h
          simp [← h.2]
    · simp [RedisService.del, RedisState.takeFault] at h
      simp [← h.2]

/-! C1 machinery: for each publish-X operation, a mutation failure is
propagated (with its phase tag) and consumes no further external call —
in particular the broadcast is never attempted — and whenever the
broadcast log grew, the final store already carries the mutation. -/

/-- The mutation phase failing (its connection call, resp. its command)
returns the tagged mutation error with only the mutation's fault entries
consumed: store, broadcast log and the rest of the schedule untouched. -/
def mutationAborts (run : RedisState → Res Unit × RedisState)
    (tag cmdMsg : String) : Prop :=
  ∀ st rest,
    (st.faults = true :: rest →
      run st = (.err (.tagged tag (.fail "cannot get connection")),
                { st with faults := rest }))
    ∧ (st.faults = false :: true :: rest →
      run st = (.err (.tagged tag (.fail cmdMsg)),
                { st with faults := rest }))

/-- Whenever a run grew the broadcast log, the record mutation had already
been applied to the store. -/
def mutationPrecedesBroadcast (run : RedisState → Res Unit × RedisState)
    (mutate : List ((String × String) × DynVal) → List ((String × String) × DynVal)) :
    Prop :=
  ∀ st, (run st).2.published ≠ st.published → (run st).2.hashes = mutate st.hashes

theorem hset_ok_hashes_of_ser {α : Type} (ser : α → Option DynVal) (o : α) (v : DynVal)
    (hv : ser o = some v) (k f : String) :
    ∀ st st', RedisService.hset ser st k f o = (.ok (), st') →
      st'.hashes = hashSet st.hashes k f v := by
  intro st st' h
  obtain ⟨w, hw, hh⟩ := hset_ok_hashes ser st k f o st' h
  rw [hv] at hw
  cases hw
  exact hh

/-- Any operation of the mutate-then-broadcast shape satisfies
`mutationPrecedesBroadcast`. -/
theorem precedes_of_shape (prim : RedisState → Res Unit × RedisState)
    (mutate : List ((String × String) × DynVal) → List ((String × String) × DynVal))
    (hpub : ∀ st, (prim st).2.published = st.published)
    (hok : ∀ st st', prim st = (.ok (), st') → st'.hashes = mutate st.hashes)
    (chan : String) (pay : DynVal) (pubWrap : RediErr → Res Unit)
    (run : RedisState → Res Unit × RedisState)
    (hrun : ∀ st, run st =
      match prim st with
      | (.ok _, st1) =>
        match RedisService.publish st1 chan pay with
        | (.ok _, st2) => (.ok (), st2)
        | (.err e, st2) => (pubWrap e, st2)
        | (.panicked, st2) => (.panicked, st2)
      | (.err e, st1) => (.err e, st1)
      | (.panicked, st1) => (.panicked, st1)) :
    mutationPrecedesBroadcast run mutate := by
  intro st hne
  rw [hrun st] at hne ⊢
  rcases hm : prim st with ⟨r, st1⟩
  have h1 : st1.published = st.published := by rw [← hpub st, hm]
  cases r with
  | ok a =>
    cases a
    rcases hp : RedisService.publish st1 chan pay with ⟨r2, st2⟩
    have h1h : st1.hashes = mutate st.hashes := hok st st1 hm
    cases r2 with
    | ok b =>
      cases b
      simp only [hm, hp] at hne ⊢
      have h2 : st2.hashes = st1.hashes := by rw [← publish_hashes st1 chan pay, hp]
      rw [h2, h1h]
    | err e =>
      simp only [hm, hp] at hne ⊢
      have h2 : st2.hashes = st1.hashes := by rw [← publish_hashes st1 chan pay, hp]
      rw [h2, h1h]
    | panicked =>
      have : (RedisService.publish st1 chan pay).1 = .panicked := by rw [hp]
      exact absurd this (publish_not_panicked st1 chan pay)
  | err e =>
    simp only [hm] at hne
    exact absurd h1 hne
  | panicked =>
    simp only [hm] at hne
    exact absurd h1 hne

/-- The `map_err(|e| anyhow!(tag, e))?` step around a mutation call. -/
def tagStep (tag : String) (r : Res Unit × RedisState) : Res Unit × RedisState :=
  match r with
  | (.ok _, st1) => (.ok (), st1)
  | (.err e, st1) => (.err (.tagged tag e), st1)
  | (.panicked, st1) => (.panicked, st1)

theorem tagStep_snd (tag : String) (r : Res Unit × RedisState) :
    (tagStep tag r).2 = r.2 := by
  rcases r with ⟨r1, st1⟩
  cases r1 <;> rfl

theorem tagStep_ok_iff (tag : String) (r : Res Unit × RedisState) (st' : RedisState) :
    tagStep tag r = (.ok (), st') ↔ r = (.ok (), st') := by
  rcases r with ⟨r1, st1⟩
  cases r1 with
  | ok a => cases a; simp [tagStep]
  | err e => simp [tagStep]
  | panicked => simp [tagStep]

theorem hsetThenPublish_precedes {α : Type} (ser : α → Option DynVal) (o : α) (v : DynVal)
    (hv : ser o = some v) (k f mutTag chan : String) (pay : DynVal)
    (pubWrap : RediErr → Res Unit) (run : RedisState → Res Unit × RedisState)
    (hrun : ∀ st, run st =
      match tagStep mutTag (RedisService.hset ser st k f o) with
      | (.ok _, st1) =>
        match RedisService.publish st1 chan pay with
        | (.ok _, st2) => (.ok (), st2)
        | (.err e, st2) => (pubWrap e, st2)
        | (.panicked, st2) => (.panicked, st2)
      | (.err e, st1) => (.err e, st1)
      | (.panicked, st1) => (.panicked, st1)) :
    mutationPrecedesBroadcast run (fun hs => hashSet hs k f v) := by
  refine precedes_of_shape _ _ ?_ ?_ chan pay pubWrap run hrun
  · intro st
    rw [tagStep_snd]
    exact hset_published ser st k f o
  · intro st st' h
    exact hset_ok_hashes_of_ser ser o v hv k f st st' ((tagStep_ok_iff _ _ _).mp h)

theorem hdelThenPublish_precedes (k f mutTag chan : String) (pay : DynVal)
    (pubWrap : RediErr → Res Unit) (run : RedisState → Res Unit × RedisState)
    (hrun : ∀ st, run st =
      match tagStep mutTag (RedisService.hdel st k f) with
      | (.ok _, st1) =>
        match RedisService.publish st1 chan pay with
        | (.ok _, st2) => (.ok (), st2)
        | (.err e, st2) => (pubWrap e, st2)
        | (.panicked, st2) => (.panicked, st2)
      | (.err e, st1) => (.err e, st1)
      | (.panicked, st1) => (.panicked, st1)) :
    mutationPrecedesBroadcast run (fun hs => hashDelField hs k f) := by
  refine precedes_of_shape _ _ ?_ ?_ chan pay pubWrap run hrun
  · intro st
    rw [tagStep_snd]
    exact hdel_published st k f
  · intro st st' h
    exact hdel_ok_hashes st k f st' ((tagStep_ok_iff _ _ _).mp h)

theorem publish_peer_connected_precedes (mid : String) (info : PeerChangedInfo) :
    mutationPrecedesBroadcast (fun st => RedisService.publish_peer st mid (.connected info))
      (fun hs => hashSet hs (DPNRedisKey.get_peers_kf mid info.ip_u32).1
        (DPNRedisKey.get_peers_kf mid info.ip_u32).2 (.peerInfo info)) := by
  refine hsetThenPublish_precedes serPeerInfo info (.peerInfo info) rfl
    (DPNRedisKey.get_peers_kf mid info.ip_u32).1 (DPNRedisKey.get_peers_kf mid info.ip_u32).2
    "redis peer add failed" (DPNRedisKey.get_peers_chan mid)
    (.peerEvent (.connected info))
    (fun e => .err (.tagged "redis peer status publish failed" e)) _ ?_
  intro st
  rcases hm : RedisService.hset serPeerInfo st (DPNRedisKey.get_peers_kf mid info.ip_u32).1
      (DPNRedisKey.get_peers_kf mid info.ip_u32).2 info with ⟨r, st1⟩
  cases r with
  | ok a =>
    cases a
    rcases hp : RedisService.publish st1 (DPNRedisKey.get_peers_chan mid)
        (.peerEvent (.connected info)) with ⟨r2, st2⟩
    cases r2 <;> simp [RedisService.publish_peer, tagStep, hm, hp]
  | err e => simp [RedisService.publish_peer, tagStep, hm]
  | panicked => simp [RedisService.publish_peer, tagStep, hm]

theorem publish_peer_disconnected_precedes (mid : String) (info : PeerChangedInfo) :
    mutationPrecedesBroadcast (fun st => RedisService.publish_peer st mid (.disconnected info))
      (fun hs => hashDelField hs (DPNRedisKey.get_peers_kf mid info.ip_u32).1
        (DPNRedisKey.get_peers_kf mid info.ip_u32).2) := by
  refine hdelThenPublish_precedes
    (DPNRedisKey.get_peers_kf mid info.ip_u32).1 (DPNRedisKey.get_peers_kf mid info.ip_u32).2
    "redis peer removal failed" (DPNRedisKey.get_peers_chan mid)
    (.peerEvent (.disconnected info))
    (fun e => .err (.tagged "redis peer status publish failed" e)) _ ?_
  intro st
  rcases hm : RedisService.hdel st (DPNRedisKey.get_peers_kf mid info.ip_u32).1
      (DPNRedisKey.get_peers_kf mid info.ip_u32).2 with ⟨r, st1⟩
  cases r with
  | ok a =>
    cases a
    rcases hp : RedisService.publish st1 (DPNRedisKey.get_peers_chan mid)
        (.peerEvent (.disconnected info)) with ⟨r2, st2⟩
    cases r2 <;> simp [RedisService.publish_peer, tagStep, hm, hp]
  | err e => simp [RedisService.publish_peer, tagStep, hm]
  | panicked => simp [RedisService.publish_peer, tagStep, hm]

theorem publish_peer_price_precedes (price : UserBandwidthPrice) :
    mutationPrecedesBroadcast (fun st => RedisService.publish_peer_price st price)
      (fun hs => hashSet hs (DPNRedisKey.get_price_kf price.user_addr).1
        (DPNRedisKey.get_price_kf price.user_addr).2 (.price price)) := by
  refine hsetThenPublish_precedes serPrice price (.price price) rfl
    (DPNRedisKey.get_price_kf price.user_addr).1 (DPNRedisKey.get_price_kf price.user_addr).2
    "redis set peer price failed" DPNRedisKey.get_price_chan (.price price)
    (fun e => .err (.tagged "redis peer status publish failed" e)) _ ?_
  intro st
  rcases hm : RedisService.hset serPrice st (DPNRedisKey.get_price_kf price.user_addr).1
      (DPNRedisKey.get_price_kf price.user_addr).2 price with ⟨r, st1⟩
  cases r with
  | ok a =>
    cases a
    rcases hp : RedisService.publish st1 DPNRedisKey.get_price_chan (.price price)
      with ⟨r2, st2⟩
    cases r2 <;> simp [RedisService.publish_peer_price, tagStep, hm, hp]
  | err e => simp [RedisService.publish_peer_price, tagStep, hm]
  | panicked => simp [RedisService.publish_peer_price, tagStep, hm]

theorem publish_first_time_provider_precedes (t : UserTask) :
    mutationPrecedesBroadcast (fun st => RedisService.publish_first_time_provider st t)
      (fun hs => hashSet hs (DPNRedisKey.get_first_time_provider_kf t.user_addr).1
        (DPNRedisKey.get_first_time_provider_kf t.user_addr).2 (.task t)) := by
  refine hsetThenPublish_precedes serTask t (.task t) rfl
    (DPNRedisKey.get_first_time_provider_kf t.user_addr).1
    (DPNRedisKey.get_first_time_provider_kf t.user_addr).2
    "redis set first time provider failed" DPNRedisKey.get_first_time_provider_chan
    (.task t) (fun e => .err (.tagged "redis first time provider publish failed" e)) _ ?_
  intro st
  rcases hm : RedisService.hset serTask st (DPNRedisKey.get_first_time_provider_kf t.user_addr).1
      (DPNRedisKey.get_first_time_provider_kf t.user_addr).2 t with ⟨r, st1⟩
  cases r with
  | ok a =>
    cases a
    rcases hp : RedisService.publish st1 DPNRedisKey.get_first_time_provider_chan (.task t)
      with ⟨r2, st2⟩
    cases r2 <;> simp [RedisService.publish_first_time_provider, tagStep, hm, hp]
  | err e => simp [RedisService.publish_first_time_provider, tagStep, hm]
  | panicked => simp [RedisService.publish_first_time_provider, tagStep, hm]

theorem publish_withdrawal_reward_precedes (t : UserTask) :
    mutationPrecedesBroadcast (fun st => RedisService.publish_withdrawal_reward st t)
      (fun hs => hashSet hs (DPNRedisKey.get_withdrawal_reward_kf t.user_addr).1
        (DPNRedisKey.get_withdrawal_reward_kf t.user_addr).2 (.task t)) := by
  refine hsetThenPublish_precedes serTask t (.task t) rfl
    (DPNRedisKey.get_withdrawal_reward_kf t.user_addr).1
    (DPNRedisKey.get_withdrawal_reward_kf t.user_addr).2
    "redis set withdrawal reward failed" DPNRedisKey.get_withdrawal_reward_chan
    (.task t) (fun e => .err (.tagged "redis first time provider publish failed" e)) _ ?_
  intro st
  rcases hm : RedisService.hset serTask st (DPNRedisKey.get_withdrawal_reward_kf t.user_addr).1
      (DPNRedisKey.get_withdrawal_reward_kf t.user_addr).2 t with ⟨r, st1⟩
  cases r with
  | ok a =>
    cases a
    rcases hp : RedisService.publish st1 DPNRedisKey.get_withdrawal_reward_chan (.task t)
      with ⟨r2, st2⟩
    cases r2 <;> simp [RedisService.publish_withdrawal_reward, tagStep, hm, hp]
  | err e => simp [RedisService.publish_withdrawal_reward, tagStep, hm]
  | panicked => simp [RedisService.publish_withdrawal_reward, tagStep, hm]

theorem publish_completed_8_hours_ot_precedes (t : UserTask) :
    mutationPrecedesBroadcast (fun st => RedisService.publish_completed_8_hours_ot st t)
      (fun hs => hashSet hs (DPNRedisKey.get_completed_8_hours_ot_kf t.user_addr).1
        (DPNRedisKey.get_completed_8_hours_ot_kf t.user_addr).2 (.task t)) := by
  refine hsetThenPublish_precedes serTask t (.task t) rfl
    (DPNRedisKey.get_completed_8_hours_ot_kf t.user_addr).1
    (DPNRedisKey.get_completed_8_hours_ot_kf t.user_addr).2
    "redis set completed 8 hours ot failed" DPNRedisKey.get_completed_8_hours_ot_chan
    (.task t) (fun e => .err (.tagged "redis completed 8 hours ot publish failed" e)) _ ?_
  intro st
  rcases hm : RedisService.hset serTask st
      (DPNRedisKey.get_completed_8_hours_ot_kf t.user_addr).1
      (DPNRedisKey.get_completed_8_hours_ot_kf t.user_addr).2 t with ⟨r, st1⟩
  cases r with
  | ok a =>
    cases a
    rcases hp : RedisService.publish st1 DPNRedisKey.get_completed_8_hours_ot_chan (.task t)
      with ⟨r2, st2⟩
    cases r2 <;> simp [RedisService.publish_completed_8_hours_ot, tagStep, hm, hp]
  | err e => simp [RedisService.publish_completed_8_hours_ot, tagStep, hm]
  | panicked => simp [RedisService.publish_completed_8_hours_ot, tagStep, hm]

theorem publish_completed_time_per_day_precedes (t : UserTask) :
    mutationPrecedesBroadcast (fun st => RedisService.publish_completed_time_per_day st t)
      (fun hs => hashSet hs (DPNRedisKey.get_completed_time_per_day_kf t.user_addr).1
        (DPNRedisKey.get_completed_time_per_day_kf t.user_addr).2 (.task t)) := by
  refine hsetThenPublish_precedes serTask t (.task t) rfl
    (DPNRedisKey.get_completed_time_per_day_kf t.user_addr).1
    (DPNRedisKey.get_completed_time_per_day_kf t.user_addr).2
    "redis set completed time per day failed" DPNRedisKey.get_completed_time_per_day_chan
    (.task t) (fun e => .err e) _ ?_
  intro st
  rcases hm : RedisService.hset serTask st
      (DPNRedisKey.get_completed_time_per_day_kf t.user_addr).1
      (DPNRedisKey.get_completed_time_per_day_kf t.user_addr).2 t with ⟨r, st1⟩
  cases r with
  | ok a =>
    cases a
    rcases hp : RedisService.publish st1 DPNRedisKey.get_completed_time_per_day_chan (.task t)
      with ⟨r2, st2⟩
    cases r2 <;> simp [RedisService.publish_completed_time_per_day, tagStep, hm, hp]
  | err e => simp [RedisService.publish_completed_time_per_day, tagStep, hm]
  | panicked => simp [RedisService.publish_completed_time_per_day, tagStep, hm]

theorem publish_proxy_acc_created_precedes (pad : ProxyAccData) :
    mutationPrecedesBroadcast (fun st => RedisService.publish_proxy_acc st (.created pad))
      (fun hs => hashSet hs (DPNRedisKey.get_proxy_acc_kf pad.id).1
        (DPNRedisKey.get_proxy_acc_kf pad.id).2 (.proxyAcc pad)) := by
  refine hsetThenPublish_precedes serProxyAcc pad (.proxyAcc pad) rfl
    (DPNRedisKey.get_proxy_acc_kf pad.id).1 (DPNRedisKey.get_proxy_acc_kf pad.id).2
    "" DPNRedisKey.get_proxy_acc_chan (.proxyAccEvent (.created pad))
    (fun e => .err (.tagged "redis proxy acc publish failed" e)) _ ?_
  intro st
  rcases hm : RedisService.hset serProxyAcc st (DPNRedisKey.get_proxy_acc_kf pad.id).1
      (DPNRedisKey.get_proxy_acc_kf pad.id).2 pad with ⟨r, st1⟩
  cases r with
  | ok a =>
    cases a
    rcases hp : RedisService.publish st1 DPNRedisKey.get_proxy_acc_chan
        (.proxyAccEvent (.created pad)) with ⟨r2, st2⟩
    cases r2 <;> simp [RedisService.publish_proxy_acc, tagStep, hm, hp]
  | err e => simp [RedisService.publish_proxy_acc, tagStep, hm]
  | panicked => simp [RedisService.publish_proxy_acc, tagStep, hm]

theorem publish_proxy_acc_updated_precedes (pad : ProxyAccData) :
    mutationPrecedesBroadcast (fun st => RedisService.publish_proxy_acc st (.updated pad))
      (fun hs => hashSet hs (DPNRedisKey.get_proxy_acc_kf pad.id).1
        (DPNRedisKey.get_proxy_acc_kf pad.id).2 (.proxyAcc pad)) := by
  refine hsetThenPublish_precedes serProxyAcc pad (.proxyAcc pad) rfl
    (DPNRedisKey.get_proxy_acc_kf pad.id).1 (DPNRedisKey.get_proxy_acc_kf pad.id).2
    "" DPNRedisKey.get_proxy_acc_chan (.proxyAccEvent (.updated pad))
    (fun e => .err (.tagged "redis proxy acc publish failed" e)) _ ?_
  intro st
  rcases hm : RedisService.hset serProxyAcc st (DPNRedisKey.get_proxy_acc_kf pad.id).1
      (DPNRedisKey.get_proxy_acc_kf pad.id).2 pad with ⟨r, st1⟩
  cases r with
  | ok a =>
    cases a
    rcases hp : RedisService.publish st1 DPNRedisKey.get_proxy_acc_chan
        (.proxyAccEvent (.updated pad)) with ⟨r2, st2⟩
    cases r2 <;> simp [RedisService.publish_proxy_acc, tagStep, hm, hp]
  | err e => simp [RedisService.publish_proxy_acc, tagStep, hm]
  | panicked => simp [RedisService.publish_proxy_acc, tagStep, hm]

theorem publish_proxy_acc_deleted_precedes (id : String) :
    mutationPrecedesBroadcast (fun st => RedisService.publish_proxy_acc st (.deleted id))
      (fun hs => hashDelField hs (DPNRedisKey.get_proxy_acc_kf id).1
        (DPNRedisKey.get_proxy_acc_kf id).2) := by
  refine hdelThenPublish_precedes
    (DPNRedisKey.get_proxy_acc_kf id).1 (DPNRedisKey.get_proxy_acc_kf id).2
    "" DPNRedisKey.get_proxy_acc_chan (.proxyAccEvent (.deleted id))
    (fun e => .err (.tagged "redis proxy acc publish failed" e)) _ ?_
  intro st
  rcases hm : RedisService.hdel st (DPNRedisKey.get_proxy_acc_kf id).1
      (DPNRedisKey.get_proxy_acc_kf id).2 with ⟨r, st1⟩
  cases r with
  | ok a =>
    cases a
    rcases hp : RedisService.publish st1 DPNRedisKey.get_proxy_acc_chan
        (.proxyAccEvent (.deleted id)) with ⟨r2, st2⟩
    cases r2 <;> simp [RedisService.publish_proxy_acc, tagStep, hm, hp]
  | err e => simp [RedisService.publish_proxy_acc, tagStep, hm]
  | panicked => simp [RedisService.publish_proxy_acc, tagStep, hm]

theorem publish_invite_friend_precedes (t : UserTask) :
    mutationPrecedesBroadcast (fun st => RedisService.publish_invite_friend_one_time st t)
      (fun hs => hs) := by
  intro st _
  rcases hp : RedisService.publish st DPNRedisKey.get_invite_friend_one_time_chan (.task t)
    with ⟨r, st1⟩
  have h1 : st1.hashes = st.hashes := by
    rw [← publish_hashes st DPNRedisKey.get_invite_friend_one_time_chan (.task t), hp]
  cases r <;> simp [RedisService.publish_invite_friend_one_time, hp, h1]

theorem publish_peer_connected_aborts (mid : String) (info : PeerChangedInfo) :
    mutationAborts (fun st => RedisService.publish_peer st mid (.connected info))
      "redis peer add failed" "redis failed to insert" := by
  intro st rest
  rcases st with ⟨hs, zs, ex, pb, fs⟩
  constructor <;> intro h <;> simp only at h <;> subst h <;>
    simp [RedisService.publish_peer, RedisService.hset, RedisState.takeFault, serPeerInfo]

theorem publish_peer_disconnected_aborts (mid : String) (info : PeerChangedInfo) :
    mutationAborts (fun st => RedisService.publish_peer st mid (.disconnected info))
      "redis peer removal failed" "redis cannot hdel" := by
  intro st rest
  rcases st with ⟨hs, zs, ex, pb, fs⟩
  constructor <;> intro h <;> simp only at h <;> subst h <;>
    simp [RedisService.publish_peer, RedisService.hdel, RedisState.takeFault]

theorem publish_peer_price_aborts (price : UserBandwidthPrice) :
    mutationAborts (fun st => RedisService.publish_peer_price st price)
      "redis set peer price failed" "redis failed to insert" := by
  intro st rest
  rcases st with ⟨hs, zs, ex, pb, fs⟩
  constructor <;> intro h <;> simp only at h <;> subst h <;>
    simp [RedisService.publish_peer_price, RedisService.hset, RedisState.takeFault, serPrice]

theorem publish_first_time_provider_aborts (t : UserTask) :
    mutationAborts (fun st => RedisService.publish_first_time_provider st t)
      "redis set first time provider failed" "redis failed to insert" := by
  intro st rest
  rcases st with ⟨hs, zs, ex, pb, fs⟩
  constructor <;> intro h <;> simp only at h <;> subst h <;>
    simp [RedisService.publish_first_time_provider, RedisService.hset,
      RedisState.takeFault, serTask]

theorem publish_withdrawal_reward_aborts (t : UserTask) :
    mutationAborts (fun st => RedisService.publish_withdrawal_reward st t)
      "redis set withdrawal reward failed" "redis failed to insert" := by
  intro st rest
  rcases st with ⟨hs, zs, ex, pb, fs⟩
  constructor <;> intro h <;> simp only at h <;> subst h <;>
    simp [RedisService.publish_withdrawal_reward, RedisService.hset,
      RedisState.takeFault, serTask]

theorem publish_completed_8_hours_ot_aborts (t : UserTask) :
    mutationAborts (fun st => RedisService.publish_completed_8_hours_ot st t)
      "redis set completed 8 hours ot failed" "redis failed to insert" := by
  intro st rest
  rcases st with ⟨hs, zs, ex, pb, fs⟩
  constructor <;> intro h <;> simp only at h <;> subst h <;>
    simp [RedisService.publish_completed_8_hours_ot, RedisService.hset,
      RedisState.takeFault, serTask]

theorem publish_completed_time_per_day_aborts (t : UserTask) :
    mutationAborts (fun st => RedisService.publish_completed_time_per_day st t)
      "redis set completed time per day failed" "redis failed to insert" := by
  intro st rest
  rcases st with ⟨hs, zs, ex, pb, fs⟩
  constructor <;> intro h <;> simp only at h <;> subst h <;>
    simp [RedisService.publish_completed_time_per_day, RedisService.hset,
      RedisState.takeFault, serTask]

theorem publish_proxy_acc_created_aborts (pad : ProxyAccData) :
    mutationAborts (fun st => RedisService.publish_proxy_acc st (.created pad))
      "" "redis failed to insert" := by
  intro st rest
  rcases st with ⟨hs, zs, ex, pb, fs⟩
  constructor <;> intro h <;> simp only at h <;> subst h <;>
    simp [RedisService.publish_proxy_acc, RedisService.hset, RedisState.takeFault, serProxyAcc]

theorem publish_proxy_acc_updated_aborts (pad : ProxyAccData) :
    mutationAborts (fun st => RedisService.publish_proxy_acc st (.updated pad))
      "" "redis failed to insert" := by
  intro st rest
  rcases st with ⟨hs, zs, ex, pb, fs⟩
  constructor <;> intro h <;> simp only at h <;> subst h <;>
    simp [RedisService.publish_proxy_acc, RedisService.hset, RedisState.takeFault, serProxyAcc]

theorem publish_proxy_acc_deleted_aborts (id : String) :
    mutationAborts (fun st => RedisService.publish_proxy_acc st (.deleted id))
      "" "redis cannot hdel" := by
  intro st rest
  rcases st with ⟨hs, zs, ex, pb, fs⟩
  constructor <;> intro h <;> simp only at h <;> subst h <;>
    simp [RedisService.publish_proxy_acc, RedisService.hdel, RedisState.takeFault]

/-- C1: for every publish-X operation (`publish_peer` in both variants,
`publish_peer_price`, the mutating variants of `publish_proxy_acc`, and
the milestone publishers), the record mutation appropriate to the event
variant is performed before the broadcast is sent — whenever a run grew
the broadcast log, the final store already carries that mutation — and
the first failure encountered is propagated: if the mutation phase fails,
the operation returns that (phase-tagged) error and the broadcast is
never attempted (the broadcast log, the store and the rest of the fault
schedule are untouched).  The record-free invite-friend publisher
mutates nothing. -/
theorem publish_ops_mutate_then_broadcast :
    (∀ mid info, mutationAborts (fun st => RedisService.publish_peer st mid (.connected info))
        "redis peer add failed" "redis failed to insert")
    ∧ (∀ mid info, mutationAborts (fun st => RedisService.publish_peer st mid (.disconnected info))
        "redis peer removal failed" "redis cannot hdel")
    ∧ (∀ price, mutationAborts (fun st => RedisService.publish_peer_price st price)
        "redis set peer price failed" "redis failed to insert")
    ∧ (∀ t, mutationAborts (fun st => RedisService.publish_first_time_provider st t)
        "redis set first time provider failed" "redis failed to insert")
    ∧ (∀ t, mutationAborts (fun st => RedisService.publish_withdrawal_reward st t)
        "redis set withdrawal reward failed" "redis failed to insert")
    ∧ (∀ t, mutationAborts (fun st => RedisService.publish_completed_8_hours_ot st t)
        "redis set completed 8 hours ot failed" "redis failed to insert")
    ∧ (∀ t, mutationAborts (fun st => RedisService.publish_completed_time_per_day st t)
        "redis set completed time per day failed" "redis failed to insert")
    ∧ (∀ pad, mutationAborts (fun st => RedisService.publish_proxy_acc st (.created pad))
        "" "redis failed to insert")
    ∧ (∀ pad, mutationAborts (fun st => RedisService.publish_proxy_acc st (.updated pad))
        "" "redis failed to insert")
    ∧ (∀ i, mutationAborts (fun st => RedisService.publish_proxy_acc st (.deleted i))
        "" "redis cannot hdel")
    ∧ (∀ mid info, mutationPrecedesBroadcast
        (fun st => RedisService.publish_peer st mid (.connected info))
        (fun hs => hashSet hs (DPNRedisKey.get_peers_kf mid info.ip_u32).1
          (DPNRedisKey.get_peers_kf mid info.ip_u32).2 (.peerInfo info)))
    ∧ (∀ mid info, mutationPrecedesBroadcast
        (fun st => RedisService.publish_peer st mid (.disconnected info))
        (fun hs => hashDelField hs (DPNRedisKey.get_peers_kf mid info.ip_u32).1
          (DPNRedisKey.get_peers_kf mid info.ip_u32).2))
    ∧ (∀ price, mutationPrecedesBroadcast
        (fun st => RedisService.publish_peer_price st price)
        (fun hs => hashSet hs (DPNRedisKey.get_price_kf price.user_addr).1
          (DPNRedisKey.get_price_kf price.user_addr).2 (.price price)))
    ∧ (∀ t, mutationPrecedesBroadcast
        (fun st => RedisService.publish_first_time_provider st t)
        (fun hs => hashSet hs (DPNRedisKey.get_first_time_provider_kf t.user_addr).1
          (DPNRedisKey.get_first_time_provider_kf t.user_addr).2 (.task t)))
    ∧ (∀ t, mutationPrecedesBroadcast
        (fun st => RedisService.publish_withdrawal_reward st t)
        (fun hs => hashSet hs (DPNRedisKey.get_withdrawal_reward_kf t.user_addr).1
          (DPNRedisKey.get_withdrawal_reward_kf t.user_addr).2 (.task t)))
    ∧ (∀ t, mutationPrecedesBroadcast
        (fun st => RedisService.publish_completed_8_hours_ot st t)
        (fun hs => hashSet hs (DPNRedisKey.get_completed_8_hours_ot_kf t.user_addr).1
          (DPNRedisKey.get_completed_8_hours_ot_kf t.user_addr).2 (.task t)))
    ∧ (∀ t, mutationPrecedesBroadcast
        (fun st => RedisService.publish_completed_time_per_day st t)
        (fun hs => hashSet hs (DPNRedisKey.get_completed_time_per_day_kf t.user_addr).1
          (DPNRedisKey.get_completed_time_per_day_kf t.user_addr).2 (.task t)))
    ∧ (∀ pad, mutationPrecedesBroadcast
        (fun st => RedisService.publish_proxy_acc st (.created pad))
        (fun hs => hashSet hs (DPNRedisKey.get_proxy_acc_kf pad.id).1
          (DPNRedisKey.get_proxy_acc_kf pad.id).2 (.proxyAcc pad)))
    ∧ (∀ pad, mutationPrecedesBroadcast
        (fun st => RedisService.publish_proxy_acc st (.updated pad))
        (fun hs => hashSet hs (DPNRedisKey.get_proxy_acc_kf pad.id).1
          (DPNRedisKey.get_proxy_acc_kf pad.id).2 (.proxyAcc pad)))
    ∧ (∀ i, mutationPrecedesBroadcast
        (fun st => RedisService.publish_proxy_acc st (.deleted i))
        (fun hs => hashDelField hs (DPNRedisKey.get_proxy_acc_kf i).1
          (DPNRedisKey.get_proxy_acc_kf i).2))
    ∧ (∀ t, mutationPrecedesBroadcast
        (fun st => RedisService.publish_invite_friend_one_time st t) (fun hs => hs)) :=
  ⟨publish_peer_connected_aborts, publish_peer_disconnected_aborts,
    publish_peer_price_aborts, publish_first_time_provider_aborts,
    publish_withdrawal_reward_aborts, publish_completed_8_hours_ot_aborts,
    publish_completed_time_per_day_aborts, publish_proxy_acc_created_aborts,
    publish_proxy_acc_updated_aborts, publish_proxy_acc_deleted_aborts,
    publish_peer_connected_precedes, publish_peer_disconnected_precedes,
    publish_peer_price_precedes, publish_first_time_provider_precedes,
    publish_withdrawal_reward_precedes, publish_completed_8_hours_ot_precedes,
    publish_completed_time_per_day_precedes, publish_proxy_acc_created_precedes,
    publish_proxy_acc_updated_precedes, publish_proxy_acc_deleted_precedes,
    publish_invite_friend_precedes⟩

/-! C3 machinery: when the mutation succeeded and the broadcast then
failed, the operation returns the broadcast error, performs no
compensation (the mutated store is left exactly in place, and nothing
beyond the failed broadcast's calls is consumed), and the mutated record
is readable afterwards. -/

/-- With the mutation's two calls succeeding and the broadcast failing
(its connection call, resp. its command), the run returns the broadcast
error over a final state whose store carries exactly the mutation —
no rollback, broadcast log unchanged. -/
def broadcastFailKeepsMutation (run : RedisState → Res Unit × RedisState)
    (mutate : List ((String × String) × DynVal) → List ((String × String) × DynVal))
    (connErr cmdErr : RediErr) : Prop :=
  ∀ st rest,
    (st.faults = false :: false :: true :: rest →
      run st = (.err connErr, { st with hashes := mutate st.hashes, faults := rest }))
    ∧ (st.faults = false :: false :: false :: true :: rest →
      run st = (.err cmdErr, { st with hashes := mutate st.hashes, faults := rest }))

theorem hashGet_hashSet (hs : List ((String × String) × DynVal)) (k f : String)
    (v : DynVal) : hashGet (hashSet hs k f v) k f = some v := by
  simp only [hashGet, hashSet]
  rw [List.find?_append]
  have h1 : (hs.filter (fun e => !(e.1 == (k, f)))).find? (fun e => e.1 == (k, f))
      = none := by
    rw [List.find?_eq_none]
    intro x hx
    simp only [List.mem_filter] at hx
    simpa using hx.2
  simp [h1]

theorem hget_found {α : Type} (deser : DynVal → Option α) (st : RedisState)
    (k f : String) (v : DynVal) (o : α) (hv : hashGet st.hashes k f = some v)
    (ho : deser v = some o) (hf : st.faults = []) :
    RedisService.hget deser st k f = (.ok o, st) := by
  rcases st with ⟨hs, zs, ex, pb, fs⟩
  simp only at hv hf
  subst hf
  simp [RedisService.hget, RedisState.takeFault, hv, ho]

theorem publish_peer_connected_pubfail (mid : String) (info : PeerChangedInfo) :
    broadcastFailKeepsMutation (fun st => RedisService.publish_peer st mid (.connected info))
      (fun hs => hashSet hs (DPNRedisKey.get_peers_kf mid info.ip_u32).1
        (DPNRedisKey.get_peers_kf mid info.ip_u32).2 (.peerInfo info))
      (.tagged "redis peer status publish failed" (.fail "cannot get connection"))
      (.tagged "redis peer status publish failed" (.fail "redis publish command failed")) := by
  intro st rest
  rcases st with ⟨hs, zs, ex, pb, fs⟩
  constructor <;> intro h <;> simp only at h <;> subst h <;>
    simp [RedisService.publish_peer, RedisService.hset, RedisService.publish,
      RedisState.takeFault, serPeerInfo]

theorem publish_peer_disconnected_pubfail (mid : String) (info : PeerChangedInfo) :
    broadcastFailKeepsMutation (fun st => RedisService.publish_peer st mid (.disconnected info))
      (fun hs => hashDelField hs (DPNRedisKey.get_peers_kf mid info.ip_u32).1
        (DPNRedisKey.get_peers_kf mid info.ip_u32).2)
      (.tagged "redis peer status publish failed" (.fail "cannot get connection"))
      (.tagged "redis peer status publish failed" (.fail "redis publish command failed")) := by
  intro st rest
  rcases st with ⟨hs, zs, ex, pb, fs⟩
  constructor <;> intro h <;> simp only at h <;> subst h <;>
    simp [RedisService.publish_peer, RedisService.hdel, RedisService.publish,
      RedisState.takeFault]

theorem publish_peer_price_pubfail (price : UserBandwidthPrice) :
    broadcastFailKeepsMutation (fun st => RedisService.publish_peer_price st price)
      (fun hs => hashSet hs (DPNRedisKey.get_price_kf price.user_addr).1
        (DPNRedisKey.get_price_kf price.user_addr).2 (.price price))
      (.tagged "redis peer status publish failed" (.fail "cannot get connection"))
      (.tagged "redis peer status publish failed" (.fail "redis publish command failed")) := by
  intro st rest
  rcases st with ⟨hs, zs, ex, pb, fs⟩
  constructor <;> intro h <;> simp only at h <;> subst h <;>
    simp [RedisService.publish_peer_price, RedisService.hset, RedisService.publish,
      RedisState.takeFault, serPrice]

theorem publish_first_time_provider_pubfail (t : UserTask) :
    broadcastFailKeepsMutation (fun st => RedisService.publish_first_time_provider st t)
      (fun hs => hashSet hs (DPNRedisKey.get_first_time_provider_kf t.user_addr).1
        (DPNRedisKey.get_first_time_provider_kf t.user_addr).2 (.task t))
      (.tagged "redis first time provider publish failed" (.fail "cannot get connection"))
      (.tagged "redis first time provider publish failed"
        (.fail "redis publish command failed")) := by
  intro st rest
  rcases st with ⟨hs, zs, ex, pb, fs⟩
  constructor <;> intro h <;> simp only at h <;> subst h <;>
    simp [RedisService.publish_first_time_provider, RedisService.hset, RedisService.publish,
      RedisState.takeFault, serTask]

theorem publish_withdrawal_reward_pubfail (t : UserTask) :
    broadcastFailKeepsMutation (fun st => RedisService.publish_withdrawal_reward st t)
      (fun hs => hashSet hs (DPNRedisKey.get_withdrawal_reward_kf t.user_addr).1
        (DPNRedisKey.get_withdrawal_reward_kf t.user_addr).2 (.task t))
      (.tagged "redis first time provider publish failed" (.fail "cannot get connection"))
      (.tagged "redis first time provider publish failed"
        (.fail "redis publish command failed")) := by
  intro st rest
  rcases st with ⟨hs, zs, ex, pb, fs⟩
  constructor <;> intro h <;> simp only at h <;> subst h <;>
    simp [RedisService.publish_withdrawal_reward, RedisService.hset, RedisService.publish,
      RedisState.takeFault, serTask]

theorem publish_completed_8_hours_ot_pubfail (t : UserTask) :
    broadcastFailKeepsMutation (fun st => RedisService.publish_completed_8_hours_ot st t)
      (fun hs => hashSet hs (DPNRedisKey.get_completed_8_hours_ot_kf t.user_addr).1
        (DPNRedisKey.get_completed_8_hours_ot_kf t.user_addr).2 (.task t))
      (.tagged "redis completed 8 hours ot publish failed" (.fail "cannot get connection"))
      (.tagged "redis completed 8 hours ot publish failed"
        (.fail "redis publish command failed")) := by
  intro st rest
  rcases st with ⟨hs, zs, ex, pb, fs⟩
  constructor <;> intro h <;> simp only at h <;> subst h <;>
    simp [RedisService.publish_completed_8_hours_ot, RedisService.hset, RedisService.publish,
      RedisState.takeFault, serTask]

theorem publish_completed_time_per_day_pubfail (t : UserTask) :
    broadcastFailKeepsMutation (fun st => RedisService.publish_completed_time_per_day st t)
      (fun hs => hashSet hs (DPNRedisKey.get_completed_time_per_day_kf t.user_addr).1
        (DPNRedisKey.get_completed_time_per_day_kf t.user_addr).2 (.task t))
      (.fail "cannot get connection") (.fail "redis publish command failed") := by
  intro st rest
  rcases st with ⟨hs, zs, ex, pb, fs⟩
  constructor <;> intro h <;> simp only at h <;> subst h <;>
    simp [RedisService.publish_completed_time_per_day, RedisService.hset,
      RedisService.publish, RedisState.takeFault, serTask]

theorem publish_proxy_acc_created_pubfail (pad : ProxyAccData) :
    broadcastFailKeepsMutation (fun st => RedisService.publish_proxy_acc st (.created pad))
      (fun hs => hashSet hs (DPNRedisKey.get_proxy_acc_kf pad.id).1
        (DPNRedisKey.get_proxy_acc_kf pad.id).2 (.proxyAcc pad))
      (.tagged "redis proxy acc publish failed" (.fail "cannot get connection"))
      (.tagged "redis proxy acc publish failed" (.fail "redis publish command failed")) := by
  intro st rest
  rcases st with ⟨hs, zs, ex, pb, fs⟩
  constructor <;> intro h <;> simp only at h <;> subst h <;>
    simp [RedisService.publish_proxy_acc, RedisService.hset, RedisService.publish,
      RedisState.takeFault, serProxyAcc]

theorem publish_proxy_acc_updated_pubfail (pad : ProxyAccData) :
    broadcastFailKeepsMutation (fun st => RedisService.publish_proxy_acc st (.updated pad))
      (fun hs => hashSet hs (DPNRedisKey.get_proxy_acc_kf pad.id).1
        (DPNRedisKey.get_proxy_acc_kf pad.id).2 (.proxyAcc pad))
      (.tagged "redis proxy acc publish failed" (.fail "cannot get connection"))
      (.tagged "redis proxy acc publish failed" (.fail "redis publish command failed")) := by
  intro st rest
  rcases st with ⟨hs, zs, ex, pb, fs⟩
  constructor <;> intro h <;> simp only at h <;> subst h <;>
    simp [RedisService.publish_proxy_acc, RedisService.hset, RedisService.publish,
      RedisState.takeFault, serProxyAcc]

theorem publish_proxy_acc_deleted_pubfail (i : String) :
    broadcastFailKeepsMutation (fun st => RedisService.publish_proxy_acc st (.deleted i))
      (fun hs => hashDelField hs (DPNRedisKey.get_proxy_acc_kf i).1
        (DPNRedisKey.get_proxy_acc_kf i).2)
      (.tagged "redis proxy acc publish failed" (.fail "cannot get connection"))
      (.tagged "redis proxy acc publish failed" (.fail "redis publish command failed")) := by
  intro st rest
  rcases st with ⟨hs, zs, ex, pb, fs⟩
  constructor <;> intro h <;> simp only at h <;> subst h <;>
    simp [RedisService.publish_proxy_acc, RedisService.hdel, RedisService.publish,
      RedisState.takeFault]

/-- C3: for every publish-X operation, if the record mutation succeeds and
the subsequent broadcast fails, the call returns the broadcast error
(never success) with no compensation — the final store carries exactly the
mutation — and the mutated record remains readable afterwards: the written
field looks up to the written value, and a `hget` over any state holding
it returns it. -/
theorem publish_ops_broadcast_failure_no_compensation :
    (∀ mid info, broadcastFailKeepsMutation
        (fun st => RedisService.publish_peer st mid (.connected info))
        (fun hs => hashSet hs (DPNRedisKey.get_peers_kf mid info.ip_u32).1
          (DPNRedisKey.get_peers_kf mid info.ip_u32).2 (.peerInfo info))
        (.tagged "redis peer status publish failed" (.fail "cannot get connection"))
        (.tagged "redis peer status publish failed" (.fail "redis publish command failed")))
    ∧ (∀ mid info, broadcastFailKeepsMutation
        (fun st => RedisService.publish_peer st mid (.disconnected info))
        (fun hs => hashDelField hs (DPNRedisKey.get_peers_kf mid info.ip_u32).1
          (DPNRedisKey.get_peers_kf mid info.ip_u32).2)
        (.tagged "redis peer status publish failed" (.fail "cannot get connection"))
        (.tagged "redis peer status publish failed" (.fail "redis publish command failed")))
    ∧ (∀ price, broadcastFailKeepsMutation
        (fun st => RedisService.publish_peer_price st price)
        (fun hs => hashSet hs (DPNRedisKey.get_price_kf price.user_addr).1
          (DPNRedisKey.get_price_kf price.user_addr).2 (.price price))
        (.tagged "redis peer status publish failed" (.fail "cannot get connection"))
        (.tagged "redis peer status publish failed" (.fail "redis publish command failed")))
    ∧ (∀ t, broadcastFailKeepsMutation
        (fun st => RedisService.publish_first_time_provider st t)
        (fun hs => hashSet hs (DPNRedisKey.get_first_time_provider_kf t.user_addr).1
          (DPNRedisKey.get_first_time_provider_kf t.user_addr).2 (.task t))
        (.tagged "redis first time provider publish failed" (.fail "cannot get connection"))
        (.tagged "redis first time provider publish failed"
          (.fail "redis publish command failed")))
    ∧ (∀ t, broadcastFailKeepsMutation
        (fun st => RedisService.publish_withdrawal_reward st t)
        (fun hs => hashSet hs (DPNRedisKey.get_withdrawal_reward_kf t.user_addr).1
          (DPNRedisKey.get_withdrawal_reward_kf t.user_addr).2 (.task t))
        (.tagged "redis first time provider publish failed" (.fail "cannot get connection"))
        (.tagged "redis first time provider publish failed"
          (.fail "redis publish command failed")))
    ∧ (∀ t, broadcastFailKeepsMutation
        (fun st => RedisService.publish_completed_8_hours_ot st t)
        (fun hs => hashSet hs (DPNRedisKey.get_completed_8_hours_ot_kf t.user_addr).1
          (DPNRedisKey.get_completed_8_hours_ot_kf t.user_addr).2 (.task t))
        (.tagged "redis completed 8 hours ot publish failed" (.fail "cannot get connection"))
        (.tagged "redis completed 8 hours ot publish failed"
          (.fail "redis publish command failed")))
    ∧ (∀ t, broadcastFailKeepsMutation
        (fun st => RedisService.publish_completed_time_per_day st t)
        (fun hs => hashSet hs (DPNRedisKey.get_completed_time_per_day_kf t.user_addr).1
          (DPNRedisKey.get_completed_time_per_day_kf t.user_addr).2 (.task t))
        (.fail "cannot get connection") (.fail "redis publish command failed"))
    ∧ (∀ pad, broadcastFailKeepsMutation
        (fun st => RedisService.publish_proxy_acc st (.created pad))
        (fun hs => hashSet hs (DPNRedisKey.get_proxy_acc_kf pad.id).1
          (DPNRedisKey.get_proxy_acc_kf pad.id).2 (.proxyAcc pad))
        (.tagged "redis proxy acc publish failed" (.fail "cannot get connection"))
        (.tagged "redis proxy acc publish failed" (.fail "redis publish command failed")))
    ∧ (∀ pad, broadcastFailKeepsMutation
        (fun st => RedisService.publish_proxy_acc st (.updated pad))
        (fun hs => hashSet hs (DPNRedisKey.get_proxy_acc_kf pad.id).1
          (DPNRedisKey.get_proxy_acc_kf pad.id).2 (.proxyAcc pad))
        (.tagged "redis proxy acc publish failed" (.fail "cannot get connection"))
        (.tagged "redis proxy acc publish failed" (.fail "redis publish command failed")))
    ∧ (∀ i, broadcastFailKeepsMutation
        (fun st => RedisService.publish_proxy_acc st (.deleted i))
        (fun hs => hashDelField hs (DPNRedisKey.get_proxy_acc_kf i).1
          (DPNRedisKey.get_proxy_acc_kf i).2)
        (.tagged "redis proxy acc publish failed" (.fail "cannot get connection"))
        (.tagged "redis proxy acc publish failed" (.fail "redis publish command failed")))
    ∧ (∀ hs k f v, hashGet (hashSet hs k f v) k f = some v)
    ∧ (∀ (α : Type) (deser : DynVal → Option α) st k f v o,
        hashGet st.hashes k f = some v → deser v = some o → st.faults = [] →
          RedisService.hget deser st k f = (.ok o, st)) :=
  ⟨publish_peer_connected_pubfail, publish_peer_disconnected_pubfail,
    publish_peer_price_pubfail, publish_first_time_provider_pubfail,
    publish_withdrawal_reward_pubfail, publish_completed_8_hours_ot_pubfail,
    publish_completed_time_per_day_pubfail, publish_proxy_acc_created_pubfail,
    publish_proxy_acc_updated_pubfail, publish_proxy_acc_deleted_pubfail,
    hashGet_hashSet,
    fun _ deser st k f v o hv ho hf => hget_found deser st k f v o hv ho hf⟩

/-! C2 machinery: `remove_all_peers` broadcasts one synthetic Disconnected
event per enumerated record (carrying exactly that record's fields),
sequentially, aborts on the first failed broadcast with the bucket left in
place, and deletes the whole bucket only after every broadcast went out. -/

/-- The Disconnected broadcasts `remove_all_peers` synthesizes for a
node's enumerated records, in enumeration order. -/
def disconnectEvents (masternode_id : String)
    (peers : List (String × PeerChangedInfo)) : List (String × DynVal) :=
  peers.map (fun pr => (DPNRedisKey.get_peers_chan masternode_id,
    .peerEvent (.disconnected (PeerChangedInfo.mk pr.2.uuid pr.2.login_session_id pr.2.ip_u32))))

theorem publish_nofault (st : RedisState) (c : String) (v : DynVal)
    (hf : st.faults = []) :
    RedisService.publish st c v
      = (.ok (), { st with published := st.published ++ [(c, v)] }) := by
  rcases st with ⟨hs, zs, ex, pb, fs⟩
  simp only at hf
  subst hf
  rfl

theorem removeAllPeersLoop_nofault (mid : String) :
    ∀ (peers : List (String × PeerChangedInfo)) (st : RedisState), st.faults = [] →
      removeAllPeersLoop mid st peers =
        (.ok (), { st with published := st.published ++ disconnectEvents mid peers }) := by
  intro peers
  induction peers with
  | nil => intro st hf; simp [removeAllPeersLoop, disconnectEvents]
  | cons p rest ih =>
    intro st hf
    rcases p with ⟨fld, change⟩
    rw [removeAllPeersLoop, publish_nofault st _ _ hf]
    refine Eq.trans (ih _ (by simp [hf])) ?_
    simp [disconnectEvents]

theorem removeAllPeersLoop_hashes (mid : String) :
    ∀ (peers : List (String × PeerChangedInfo)) (st : RedisState),
      (removeAllPeersLoop mid st peers).2.hashes = st.hashes := by
  intro peers
  induction peers with
  | nil => intro st; rfl
  | cons p rest ih =>
    intro st
    rcases p with ⟨fld, change⟩
    rw [removeAllPeersLoop]
    rcases hp : RedisService.publish st (DPNRedisKey.get_peers_chan mid)
        (.peerEvent (.disconnected
          (PeerChangedInfo.mk change.uuid change.login_session_id change.ip_u32)))
      with ⟨r, st1⟩
    have h1 : st1.hashes = st.hashes := by rw [← publish_hashes st _ _, hp]
    cases r <;> simp [ih, h1]

theorem removeAllPeersLoop_ok_published (mid : String) :
    ∀ (peers : List (String × PeerChangedInfo)) (st st' : RedisState),
      removeAllPeersLoop mid st peers = (.ok (), st') →
        st'.published = st.published ++ disconnectEvents mid peers := by
  intro peers
  induction peers with
  | nil =>
    intro st st' h
    simp [removeAllPeersLoop] at h
    simp [← h, disconnectEvents]
  | cons p rest ih =>
    intro st st' h
    rcases p with ⟨fld, change⟩
    rw [removeAllPeersLoop] at h
    rcases hp : RedisService.publish st (DPNRedisKey.get_peers_chan mid)
        (.peerEvent (.disconnected
          (PeerChangedInfo.mk change.uuid change.login_session_id change.ip_u32)))
      with ⟨r, st1⟩
    rw [hp] at h
    cases r with
    | ok a =>
      cases a
      have h1 := publish_ok_state st _ _ st1 hp
      rw [ih st1 st' h, h1.1]
      simp [disconnectEvents]
    | err e => simp at h
    | panicked => simp at h

theorem removeAllPeersLoop_err (mid : String) :
    ∀ (peers : List (String × PeerChangedInfo)) (st st' : RedisState) (e : RediErr),
      removeAllPeersLoop mid st peers = (.err e, st') →
        ∃ n, st'.published = st.published ++ (disconnectEvents mid peers).take n := by
  intro peers
  induction peers with
  | nil => intro st st' e h; simp [removeAllPeersLoop] at h
  | cons p rest ih =>
    intro st st' e h
    rcases p with ⟨fld, change⟩
    rw [removeAllPeersLoop] at h
    rcases hp : RedisService.publish st (DPNRedisKey.get_peers_chan mid)
        (.peerEvent (.disconnected
          (PeerChangedInfo.mk change.uuid change.login_session_id change.ip_u32)))
      with ⟨r, st1⟩
    rw [hp] at h
    cases r with
    | ok a =>
      cases a
      obtain ⟨n, hn⟩ := ih st1 st' e h
      obtain ⟨h1, _⟩ := publish_ok_state st _ _ st1 hp
      refine ⟨n + 1, ?_⟩
      rw [hn, h1]
      simp [disconnectEvents]
    | err e0 =>
      simp only [Prod.mk.injEq] at h
      obtain ⟨h1, _⟩ := publish_err_state st _ _ e0 st1 hp
      refine ⟨0, ?_⟩
      rw [← h.2, h1]
      simp
    | panicked => simp at h

theorem hgetall_nofault {α : Type} (deser : DynVal → Option α) (st : RedisState)
    (k : String) (rs : List (String × α)) (hf : st.faults = [])
    (hd : decodeAll deser (bucketFields st.hashes k) = some rs) :
    RedisService.hgetall deser st k = (.ok rs, st) := by
  rcases st with ⟨hs, zs, ex, pb, fs⟩
  simp only at hf hd
  subst hf
  simp [RedisService.hgetall, RedisState.takeFault, hd]

theorem del_nofault (st : RedisState) (k : String) (hf : st.faults = []) :
    RedisService.del st k = (.ok (), { st with
      hashes := hashDelBucket st.hashes k,
      zsets := st.zsets.filter (fun e => !(e.1 == k)),
      expiries := st.expiries.filter (fun e => !(e.1 == k)) }) := by
  rcases st with ⟨hs, zs, ex, pb, fs⟩
  simp only at hf
  subst hf
  rfl

theorem bucketFields_delBucket (hs : List ((String × String) × DynVal)) (k : String) :
    bucketFields (hashDelBucket hs k) k = [] := by
  simp only [bucketFields, hashDelBucket, List.filter_filter, List.map_eq_nil_iff]
  rw [List.filter_eq_nil_iff]
  intro a _
  simp

theorem remove_all_peers_nofault (st : RedisState) (mid : String)
    (peers : List (String × PeerChangedInfo)) (hf : st.faults = [])
    (hd : decodeAll deserPeerInfo
      (bucketFields st.hashes (DPNRedisKey.get_peers_kf mid 0).1) = some peers) :
    RedisService.remove_all_peers st mid = (.ok (), { st with
      hashes := hashDelBucket st.hashes (DPNRedisKey.get_peers_kf mid 0).1,
      zsets := st.zsets.filter (fun e => !(e.1 == (DPNRedisKey.get_peers_kf mid 0).1)),
      expiries := st.expiries.filter (fun e => !(e.1 == (DPNRedisKey.get_peers_kf mid 0).1)),
      published := st.published ++ disconnectEvents mid peers }) := by
  have h1 := hgetall_nofault deserPeerInfo st _ peers hf hd
  have h2 := removeAllPeersLoop_nofault mid peers st hf
  have h3 := del_nofault { st with published := st.published ++ disconnectEvents mid peers }
    (DPNRedisKey.get_peers_kf mid 0).1 (by simp [hf])
  simp only [RedisService.remove_all_peers, h1, h2, h3]

theorem hgetall_ok_val {α : Type} (deser : DynVal → Option α) (st : RedisState)
    (k : String) (rs : List (String × α)) (st' : RedisState)
    (h : RedisService.hgetall deser st k = (.ok rs, st')) :
    decodeAll deser (bucketFields st.hashes k) = some rs
      ∧ st'.published = st.published := by
  rcases st with ⟨hs, zs, ex, pb, fs⟩
  rcases fs with _ | ⟨b1, fs⟩
  · cases hdc : decodeAll deser (bucketFields hs k) with
    | none => simp [RedisService.hgetall, RedisState.takeFault, hdc] at h
    | some rs0 =>
      simp [RedisService.hgetall, RedisState.takeFault, hdc] at h
      obtain ⟨h1, h2⟩ := h
      subst h1
      subst h2
      exact ⟨rfl, rfl⟩
  · cases b1
    · rcases fs with _ | ⟨b2, fs⟩
      · cases hdc : decodeAll deser (bucketFields hs k) with
        | none => simp [RedisService.hgetall, RedisState.takeFault, hdc] at h
        | some rs0 =>
          simp [RedisService.hgetall, RedisState.takeFault, hdc] at h
          obtain ⟨h1, h2⟩ := h
          subst h1
          subst h2
          exact ⟨rfl, rfl⟩
      · cases b2
        · cases hdc : decodeAll deser (bucketFields hs k) with
          | none => simp [RedisService.hgetall, RedisState.takeFault, hdc] at h
          | some rs0 =>
            simp [RedisService.hgetall, RedisState.takeFault, hdc] at h
            obtain ⟨h1, h2⟩ := h
            subst h1
            subst h2
            exact ⟨rfl, rfl⟩
        · simp [RedisService.hgetall, RedisState.takeFault] at h
    · simp [RedisService.hgetall, RedisState.takeFault] at h

theorem remove_all_peers_err_hashes (st : RedisState) (mid : String) (e : RediErr)
    (st' : RedisState) (h : RedisService.remove_all_peers st mid = (.err e, st')) :
    st'.hashes = st.hashes := by
  rw [RedisService.remove_all_peers] at h
  rcases hg : RedisService.hgetall deserPeerInfo st (DPNRedisKey.get_peers_kf mid 0).1
    with ⟨r0, st1⟩
  rw [hg] at h
  have hg1 : st1.hashes = st.hashes := by
    rw [← (hgetall_state deserPeerInfo st (DPNRedisKey.get_peers_kf mid 0).1).1, hg]
  cases r0 with
  | ok peers =>
    replace h : (match removeAllPeersLoop mid st1 peers with
      | (.ok _, st2) =>
        match RedisService.del st2 (DPNRedisKey.get_peers_kf mid 0).1 with
        | (.ok _, st3) => ((.ok () : Res Unit), st3)
        | (.err e4, st3) => (.err (.tagged "failed to remove peers from redis" e4), st3)
        | (.panicked, st3) => (.panicked, st3)
      | other => other) = (.err e, st') := h
    rcases hl : removeAllPeersLoop mid st1 peers with ⟨r1, st2⟩
    rw [hl] at h
    have hl1 : st2.hashes = st1.hashes := by
      rw [← removeAllPeersLoop_hashes mid peers st1, hl]
    cases r1 with
    | ok a =>
      cases a
      replace h : (match RedisService.del st2 (DPNRedisKey.get_peers_kf mid 0).1 with
        | (.ok _, st3) => ((.ok () : Res Unit), st3)
        | (.err e4, st3) => (.err (.tagged "failed to remove peers from redis" e4), st3)
        | (.panicked, st3) => (.panicked, st3)) = (.err e, st') := h
      rcases hdl : RedisService.del st2 (DPNRedisKey.get_peers_kf mid 0).1 with ⟨r2, st3⟩
      rw [hdl] at h
      cases r2 with
      | ok a2 => simp at h
      | err e2 =>
        simp only [Prod.mk.injEq, Res.err.injEq] at h
        rw [← h.2, (del_err_state st2 _ e2 st3 hdl).1, hl1, hg1]
      | panicked => simp at h
    | err e1 =>
      simp only [Prod.mk.injEq, Res.err.injEq] at h
      rw [← h.2, hl1, hg1]
    | panicked => simp at h
  | err e0 =>
    simp only [Prod.mk.injEq, Res.err.injEq] at h
    rw [← h.2, hg1]
  | panicked => simp at h

theorem remove_all_peers_err_published (st : RedisState) (mid : String)
    (peers : List (String × PeerChangedInfo)) (e : RediErr) (st' : RedisState)
    (hd : decodeAll deserPeerInfo
      (bucketFields st.hashes (DPNRedisKey.get_peers_kf mid 0).1) = some peers)
    (h : RedisService.remove_all_peers st mid = (.err e, st')) :
    ∃ n, st'.published = st.published ++ (disconnectEvents mid peers).take n := by
  rw [RedisService.remove_all_peers] at h
  rcases hg : RedisService.hgetall deserPeerInfo st (DPNRedisKey.get_peers_kf mid 0).1
    with ⟨r0, st1⟩
  rw [hg] at h
  cases r0 with
  | ok rs =>
    obtain ⟨hrs, hp1⟩ := hgetall_ok_val deserPeerInfo st _ rs st1 hg
    rw [hd] at hrs
    injection hrs with hrs
    subst hrs
    replace h : (match removeAllPeersLoop mid st1 peers with
      | (.ok _, st2) =>
        match RedisService.del st2 (DPNRedisKey.get_peers_kf mid 0).1 with
        | (.ok _, st3) => ((.ok () : Res Unit), st3)
        | (.err e4, st3) => (.err (.tagged "failed to remove peers from redis" e4), st3)
        | (.panicked, st3) => (.panicked, st3)
      | other => other) = (.err e, st') := h
    rcases hl : removeAllPeersLoop mid st1 peers with ⟨r1, st2⟩
    rw [hl] at h
    cases r1 with
    | ok a =>
      cases a
      have hp2 := removeAllPeersLoop_ok_published mid peers st1 st2 hl
      replace h : (match RedisService.del st2 (DPNRedisKey.get_peers_kf mid 0).1 with
        | (.ok _, st3) => ((.ok () : Res Unit), st3)
        | (.err e4, st3) => (.err (.tagged "failed to remove peers from redis" e4), st3)
        | (.panicked, st3) => (.panicked, st3)) = (.err e, st') := h
      rcases hdl : RedisService.del st2 (DPNRedisKey.get_peers_kf mid 0).1 with ⟨r2, st3⟩
      rw [hdl] at h
      cases r2 with
      | ok a2 => simp at h
      | err e2 =>
        simp only [Prod.mk.injEq, Res.err.injEq] at h
        refine ⟨(disconnectEvents mid peers).length, ?_⟩
        rw [← h.2, (del_err_state st2 _ e2 st3 hdl).2, hp2, hp1, List.take_length]
      | panicked => simp at h
    | err e1 =>
      simp only [Prod.mk.injEq, Res.err.injEq] at h
      obtain ⟨n, hn⟩ := removeAllPeersLoop_err mid peers st1 st2 e1 hl
      refine ⟨n, ?_⟩
      rw [← h.2, hn, hp1]
    | panicked => simp at h
  | err e0 =>
    simp only [Prod.mk.injEq, Res.err.injEq] at h
    refine ⟨0, ?_⟩
    have hp0 : st1.published = st.published := by
      rw [← (hgetall_state deserPeerInfo st (DPNRedisKey.get_peers_kf mid 0).1).2, hg]
    rw [← h.2, hp0]
    simp
  | panicked => simp at h

theorem get_peers_nofault_empty (st : RedisState) (mid : String) (hf : st.faults = [])
    (hb : bucketFields st.hashes (DPNRedisKey.get_peers_kf mid 0).1 = []) :
    RedisService.get_peers st mid = (.ok [], st) := by
  rw [RedisService.get_peers, hgetall_nofault deserPeerInfo st _ [] hf (by rw [hb]; rfl)]
  rfl

/-- C2: `remove_all_peers` enumerates every record of the node's bucket,
broadcasts one synthetic Disconnected event per record — carrying exactly
that record's uuid, login session id and ip — in enumeration order; on any
failure the bucket is left in place (first broadcast failure aborts the
sweep, already-broadcast events staying in the log as a prefix of the
event list); only when every broadcast succeeded is the whole bucket
deleted, after which `get_peers` returns the empty sequence.  The closing
conjuncts run the spec's two-peer example (ip 1 and ip 2). -/
theorem remove_all_peers_disconnect_sweep :
    (∀ st mid peers, st.faults = [] →
      decodeAll deserPeerInfo (bucketFields st.hashes (DPNRedisKey.get_peers_kf mid 0).1)
          = some peers →
      RedisService.remove_all_peers st mid = (.ok (), { st with
        hashes := hashDelBucket st.hashes (DPNRedisKey.get_peers_kf mid 0).1,
        zsets := st.zsets.filter (fun e => !(e.1 == (DPNRedisKey.get_peers_kf mid 0).1)),
        expiries := st.expiries.filter
          (fun e => !(e.1 == (DPNRedisKey.get_peers_kf mid 0).1)),
        published := st.published ++ disconnectEvents mid peers }))
    ∧ (∀ hs k, bucketFields (hashDelBucket hs k) k = [])
    ∧ (∀ st mid, st.faults = [] →
        bucketFields st.hashes (DPNRedisKey.get_peers_kf mid 0).1 = [] →
        RedisService.get_peers st mid = (.ok [], st))
    ∧ (∀ st mid e st', RedisService.remove_all_peers st mid = (.err e, st') →
        st'.hashes = st.hashes)
    ∧ (∀ st mid peers e st',
        decodeAll deserPeerInfo (bucketFields st.hashes (DPNRedisKey.get_peers_kf mid 0).1)
          = some peers →
        RedisService.remove_all_peers st mid = (.err e, st') →
        ∃ n, st'.published = st.published ++ (disconnectEvents mid peers).take n)
    ∧ RedisService.remove_all_peers
        ⟨[(("peers_ms#n", "1"), .peerInfo ⟨"u1", "s1", 1⟩),
          (("peers_ms#n", "2"), .peerInfo ⟨"u2", "s2", 2⟩)], [], [], [], []⟩ "n"
        = (.ok (), ⟨[], [], [],
            [("peers_updated_ms#n", .peerEvent (.disconnected ⟨"u1", "s1", 1⟩)),
             ("peers_updated_ms#n", .peerEvent (.disconnected ⟨"u2", "s2", 2⟩))], []⟩)
    ∧ RedisService.get_peers ⟨[], [], [], [], []⟩ "n" = (.ok [], ⟨[], [], [], [], []⟩) :=
  ⟨remove_all_peers_nofault, bucketFields_delBucket, get_peers_nofault_empty,
   remove_all_peers_err_hashes, remove_all_peers_err_published, by rfl, by rfl⟩

/-- C4 counterexample: at a concrete state whose schedule fails the HSET
command, `publish_completed_time_per_day` returns the tagged put error
with the broadcast never attempted — the mutation-error check the claim
says is omitted is in fact present. -/
theorem completed_time_per_day_put_failure_propagates :
    RedisService.publish_completed_time_per_day ⟨[], [], [], [], [false, true]⟩ ⟨"u"⟩
      = (.err (.tagged "redis set completed time per day failed"
          (.fail "redis failed to insert")), ⟨[], [], [], [], []⟩) := by
  rfl

/-- C4 (amended): `publish_completed_time_per_day` does propagate a put
(HSET) failure first, tagged, exactly like its siblings; what it omits is
only the `map_err` around the broadcast — a broadcast failure is
forwarded as the broadcast's own untagged error, where the sibling
`publish_completed_8_hours_ot` wraps it in a site-specific tag. -/
theorem completed_time_per_day_forwards_broadcast_result :
    (∀ t : UserTask, mutationAborts
        (fun st => RedisService.publish_completed_time_per_day st t)
        "redis set completed time per day failed" "redis failed to insert")
    ∧ (∀ t : UserTask, broadcastFailKeepsMutation
        (fun st => RedisService.publish_completed_time_per_day st t)
        (fun hs => hashSet hs (DPNRedisKey.get_completed_time_per_day_kf t.user_addr).1
          (DPNRedisKey.get_completed_time_per_day_kf t.user_addr).2 (.task t))
        (.fail "cannot get connection") (.fail "redis publish command failed"))
    ∧ (∀ t : UserTask, broadcastFailKeepsMutation
        (fun st => RedisService.publish_completed_8_hours_ot st t)
        (fun hs => hashSet hs (DPNRedisKey.get_completed_8_hours_ot_kf t.user_addr).1
          (DPNRedisKey.get_completed_8_hours_ot_kf t.user_addr).2 (.task t))
        (.tagged "redis completed 8 hours ot publish failed" (.fail "cannot get connection"))
        (.tagged "redis completed 8 hours ot publish failed"
          (.fail "redis publish command failed"))) :=
  ⟨publish_completed_time_per_day_aborts, publish_completed_time_per_day_pubfail,
    publish_completed_8_hours_ot_pubfail⟩

/-- C5 counterexample: a payload whose serialization fails makes `hset`
panic (the source's `.unwrap()`), not return a `SerializationError`. -/
theorem hset_serialization_failure_panics :
    RedisService.hset (fun _ : Unit => (none : Option DynVal)) ⟨[], [], [], [], []⟩
        "b" "f" () = (.panicked, ⟨[], [], [], [], []⟩)
      ∧ ∀ e, (Res.panicked : Res Unit) ≠ .err e :=
  ⟨rfl, fun _ h => nomatch h⟩

/-- C5 (amended): `hset` serializes the value and writes it to the given
bucket/field, overwriting any existing value (the overwritten field reads
back the new value); it returns nothing on success and fails with the
store-unavailable errors (connection, resp. write command); but a payload
whose serialization fails causes a panic after the connection call, with
no store write — it does not return a `SerializationError`. -/
theorem hset_put_spec :
    (∀ (α : Type) (ser : α → Option DynVal) (o : α) v k f st, ser o = some v →
      st.faults = [] →
      RedisService.hset ser st k f o
        = (.ok (), { st with hashes := hashSet st.hashes k f v }))
    ∧ (∀ (α : Type) (ser : α → Option DynVal) (o : α) k f st rest,
        st.faults = true :: rest →
        RedisService.hset ser st k f o
          = (.err (.fail "cannot get connection"), { st with faults := rest }))
    ∧ (∀ (α : Type) (ser : α → Option DynVal) (o : α) v k f st rest, ser o = some v →
        st.faults = false :: true :: rest →
        RedisService.hset ser st k f o
          = (.err (.fail "redis failed to insert"), { st with faults := rest }))
    ∧ (∀ (α : Type) (ser : α → Option DynVal) (o : α) k f st rest, ser o = none →
        st.faults = false :: rest →
        RedisService.hset ser st k f o = (.panicked, { st with faults := rest }))
    ∧ (∀ hs k f v v0, hashGet (hashSet (hashSet hs k f v0) k f v) k f = some v) := by
  refine ⟨?_, ?_, ?_, ?_, ?_⟩
  · intro α ser o v k f st hv hf
    rcases st with ⟨hs, zs, ex, pb, fs⟩
    simp only at hf
    subst hf
    simp [RedisService.hset, RedisState.takeFault, hv]
  · intro α ser o k f st rest hf
    rcases st with ⟨hs, zs, ex, pb, fs⟩
    simp only at hf
    subst hf
    simp [RedisService.hset, RedisState.takeFault]
  · intro α ser o v k f st rest hv hf
    rcases st with ⟨hs, zs, ex, pb, fs⟩
    simp only at hf
    subst hf
    simp [RedisService.hset, RedisState.takeFault, hv]
  · intro α ser o k f st rest hn hf
    rcases st with ⟨hs, zs, ex, pb, fs⟩
    simp only at hf
    subst hf
    simp [RedisService.hset, RedisState.takeFault, hn]
  · intro hs k f v v0
    exact hashGet_hashSet (hashSet hs k f v0) k f v

/-- C6: `hset_with_ttl` performs the same field write as `hset` (the same
`hashSet` on the same key/field/value), then sets an expiry on the whole
bucket; it fails with the store-unavailable error when the write or the
expiry call fails; and when only the expiry call fails the field write
remains in effect in the store. -/
theorem hset_with_ttl_spec :
    (∀ (α : Type) (ser : α → Option DynVal) (o : α) v k f ttl st, ser o = some v →
      st.faults = [] →
      RedisService.hset_with_ttl ser st k f o ttl = (.ok (), { st with
        hashes := hashSet st.hashes k f v,
        expiries := expirySet st.expiries k ttl }))
    ∧ (∀ (α : Type) (ser : α → Option DynVal) (o : α) v k f ttl st, ser o = some v →
        st.faults = [] →
        (RedisService.hset_with_ttl ser st k f o ttl).2.hashes
          = (RedisService.hset ser st k f o).2.hashes)
    ∧ (∀ (α : Type) (ser : α → Option DynVal) (o : α) k f ttl st rest,
        st.faults = true :: rest →
        RedisService.hset_with_ttl ser st k f o ttl
          = (.err (.fail "cannot get connection"), { st with faults := rest }))
    ∧ (∀ (α : Type) (ser : α → Option DynVal) (o : α) v k f ttl st rest, ser o = some v →
        st.faults = false :: true :: rest →
        RedisService.hset_with_ttl ser st k f o ttl
          = (.err (.fail "redis failed to insert"), { st with faults := rest }))
    ∧ (∀ (α : Type) (ser : α → Option DynVal) (o : α) v k f ttl st rest, ser o = some v →
        st.faults = false :: false :: true :: rest →
        RedisService.hset_with_ttl ser st k f o ttl
          = (.err (.fail "redis failed to set expiration on key"),
             { st with hashes := hashSet st.hashes k f v, faults := rest })) := by
  refine ⟨?_, ?_, ?_, ?_, ?_⟩
  · intro α ser o v k f ttl st hv hf
    rcases st with ⟨hs, zs, ex, pb, fs⟩
    simp only at hf
    subst hf
    simp [RedisService.hset_with_ttl, RedisState.takeFault, hv]
  · intro α ser o v k f ttl st hv hf
    rcases st with ⟨hs, zs, ex, pb, fs⟩
    simp only at hf
    subst hf
    simp [RedisService.hset_with_ttl, RedisService.hset, RedisState.takeFault, hv]
  · intro α ser o k f ttl st rest hf
    rcases st with ⟨hs, zs, ex, pb, fs⟩
    simp only at hf
    subst hf
    simp [RedisService.hset_with_ttl, RedisState.takeFault]
  · intro α ser o v k f ttl st rest hv hf
    rcases st with ⟨hs, zs, ex, pb, fs⟩
    simp only at hf
    subst hf
    simp [RedisService.hset_with_ttl, RedisState.takeFault, hv]
  · intro α ser o v k f ttl st rest hv hf
    rcases st with ⟨hs, zs, ex, pb, fs⟩
    simp only at hf
    subst hf
    simp [RedisService.hset_with_ttl, RedisState.takeFault, hv]

/-- C7: publishing a `ProxyAccChanged::RefreshAll` performs no store
mutation whatsoever — for every prior state (any fault schedule) the hash
buckets, sorted sets and expiries are unchanged — while a clean run
broadcasts the serialized event on the proxy-account channel. -/
theorem refreshAll_pure_signal :
    (∀ st, (RedisService.publish_proxy_acc st .refreshAll).2.hashes = st.hashes
      ∧ (RedisService.publish_proxy_acc st .refreshAll).2.zsets = st.zsets
      ∧ (RedisService.publish_proxy_acc st .refreshAll).2.expiries = st.expiries)
    ∧ (∀ st, st.faults = [] →
        RedisService.publish_proxy_acc st .refreshAll = (.ok (), { st with published :=
          st.published ++ [(DPNRedisKey.get_proxy_acc_chan,
            .proxyAccEvent .refreshAll)] })) := by
  constructor
  · intro st
    rcases hp : RedisService.publish st DPNRedisKey.get_proxy_acc_chan
        (.proxyAccEvent .refreshAll) with ⟨r, st1⟩
    have h1 : st1.hashes = st.hashes := by
      rw [← publish_hashes st DPNRedisKey.get_proxy_acc_chan (.proxyAccEvent .refreshAll), hp]
    have h2 : st1.zsets = st.zsets := by
      rw [← publish_zsets st DPNRedisKey.get_proxy_acc_chan (.proxyAccEvent .refreshAll), hp]
    have h3 : st1.expiries = st.expiries := by
      rw [← publish_expiries st DPNRedisKey.get_proxy_acc_chan (.proxyAccEvent .refreshAll),
        hp]
    cases r <;> simp [RedisService.publish_proxy_acc, hp, h1, h2, h3]
  · intro st hf
    simp [RedisService.publish_proxy_acc, publish_nofault st _ _ hf]

/-- C8: `zgetall` returns, for every queue state, all members of the
sorted set sorted ascending by score via an explicit sort step
(`sort_by_key`), independent of the order the underlying range read
returns them (the result is a sorted permutation of whatever the range
read yields) and regardless of insertion order — with the spec's example
(peer 1 at score 50, peer 2 at 10, peer 3 at 30) sorted accordingly. -/
theorem zgetall_sorted_spec :
    (∀ st k, st.faults = [] →
      RedisService.zgetall st k =
        (.ok (List.mergeSort (zsetFields st.zsets k) (fun a b => decide (a.2 ≤ b.2))), st))
    ∧ (∀ l : List (Nat × Nat),
        (List.mergeSort l (fun a b => decide (a.2 ≤ b.2))).Pairwise (fun a b => a.2 ≤ b.2))
    ∧ (∀ l : List (Nat × Nat),
        (List.mergeSort l (fun a b => decide (a.2 ≤ b.2))).Perm l)
    ∧ (RedisService.zgetall
        (RedisService.zadd (RedisService.zadd
          (RedisService.zadd ⟨[], [], [], [], []⟩ "q" 50 1).2 "q" 10 2).2 "q" 30 3).2
        "q").1 = .ok [(2, 10), (3, 30), (1, 50)] := by
  refine ⟨?_, ?_, ?_, ?_⟩
  · intro st k hf
    rcases st with ⟨hs, zs, ex, pb, fs⟩
    simp only at hf
    subst hf
    simp [RedisService.zgetall, RedisState.takeFault]
  · intro l
    have hs := @List.sorted_mergeSort (Nat × Nat) (fun a b => decide (a.2 ≤ b.2))
      (fun a b c hab hbc => by
        simp only [decide_eq_true_eq] at hab hbc ⊢
        omega)
      (fun a b => by
        simp only [Bool.or_eq_true, decide_eq_true_eq]
        exact Nat.le_total a.2 b.2) l
    exact hs.imp (fun h => of_decide_eq_true h)
  · intro l
    exact List.mergeSort_perm l _
  · simp [RedisService.zgetall, RedisService.zadd, RedisState.takeFault, zsetsSet,
      zsetAdd, zsetFields, List.mergeSort]

theorem string_underscore_inj (m1 s1 m2 s2 : String)
    (h1 : '_' ∉ m1.data) (h2 : '_' ∉ m2.data)
    (h : m1 ++ "_" ++ s1 = m2 ++ "_" ++ s2) : m1 = m2 ∧ s1 = s2 := by
  have hd := congrArg String.data h
  simp only [String.data_append] at hd
  have hd2 : m1.data ++ '_' :: s1.data = m2.data ++ '_' :: s2.data := by
    simpa using hd
  obtain ⟨ha, hb⟩ := append_underscore_inj m1.data m2.data h1 h2 hd2
  constructor
  · cases m1; cases m2; exact congrArg String.mk ha
  · cases s1; cases s2; exact congrArg String.mk hb

/-- C9 counterexample: `get_geo_kf` is not collision-free on its two-part
identifier — the distinct pairs ("a_b", "c") and ("a", "b_c") resolve to
the same (bucket, field). -/
theorem get_geo_kf_collision :
    DPNRedisKey.get_geo_kf "a_b" "c" = DPNRedisKey.get_geo_kf "a" "b_c"
      ∧ ¬("a_b" = "a" ∧ "c" = "b_c") := by
  constructor
  · decide
  · decide

/-- C9 (amended): every key resolver in `DPNRedisKey` is a pure function
of its arguments, and within each kind the resolved keys are
collision-free for every single-identifier kind, for the per-node peer
bucket/field (distinct nodes never share a peer bucket, distinct
node+address pairs never share bucket+field) and for the peer channel;
`get_geo_kf`, whose field glues its two identifiers with an underscore,
is collision-free only when the masternode components are
underscore-free (the counterexample shows the general claim fails). -/
theorem key_resolvers_collision_free :
    (∀ a b, DPNRedisKey.get_balance_kf a = DPNRedisKey.get_balance_kf b → a = b)
    ∧ (∀ a b, DPNRedisKey.get_price_kf a = DPNRedisKey.get_price_kf b → a = b)
    ∧ (∀ a b, DPNRedisKey.get_proxy_acc_kf a = DPNRedisKey.get_proxy_acc_kf b → a = b)
    ∧ (∀ a b, DPNRedisKey.get_uptime_xp_kf a = DPNRedisKey.get_uptime_xp_kf b → a = b)
    ∧ (∀ a b, DPNRedisKey.get_first_time_provider_kf a
        = DPNRedisKey.get_first_time_provider_kf b → a = b)
    ∧ (∀ a b, DPNRedisKey.get_withdrawal_reward_kf a
        = DPNRedisKey.get_withdrawal_reward_kf b → a = b)
    ∧ (∀ a b, DPNRedisKey.get_completed_8_hours_ot_kf a
        = DPNRedisKey.get_completed_8_hours_ot_kf b → a = b)
    ∧ (∀ a b, DPNRedisKey.get_invite_friend_one_time_kf a
        = DPNRedisKey.get_invite_friend_one_time_kf b → a = b)
    ∧ (∀ a b, DPNRedisKey.get_completed_time_per_day_kf a
        = DPNRedisKey.get_completed_time_per_day_kf b → a = b)
    ∧ (∀ a b, DPNRedisKey.get_user_addr_geo_kf a
        = DPNRedisKey.get_user_addr_geo_kf b → a = b)
    ∧ (∀ m1 i1 m2 i2, DPNRedisKey.get_peers_kf m1 i1 = DPNRedisKey.get_peers_kf m2 i2 →
        m1 = m2 ∧ i1 = i2)
    ∧ (∀ m1 m2, DPNRedisKey.get_peers_chan m1 = DPNRedisKey.get_peers_chan m2 → m1 = m2)
    ∧ (∀ m1 s1 m2 s2, '_' ∉ m1.data → '_' ∉ m2.data →
        DPNRedisKey.get_geo_kf m1 s1 = DPNRedisKey.get_geo_kf m2 s2 →
        m1 = m2 ∧ s1 = s2) := by
  refine ⟨?_, ?_, ?_, ?_, ?_, ?_, ?_, ?_, ?_, ?_, ?_, ?_, ?_⟩
  · exact fun a b h => congrArg Prod.snd h
  · exact fun a b h => congrArg Prod.snd h
  · exact fun a b h => congrArg Prod.snd h
  · exact fun a b h => congrArg Prod.snd h
  · exact fun a b h => congrArg Prod.snd h
  · exact fun a b h => congrArg Prod.snd h
  · exact fun a b h => congrArg Prod.snd h
  · exact fun a b h => congrArg Prod.snd h
  · exact fun a b h => congrArg Prod.snd h
  · exact fun a b h => congrArg Prod.snd h
  · intro m1 i1 m2 i2 h
    constructor
    · exact string_append_left_cancel (congrArg Prod.fst h)
    · exact natRepr_injective (congrArg Prod.snd h)
  · exact fun m1 m2 h => string_append_left_cancel h
  · intro m1 s1 m2 s2 h1 h2 h
    exact string_underscore_inj m1 s1 m2 s2 h1 h2 (congrArg Prod.snd h)

/-- C10: for every identifier-parameterized resolver whose bucket is not
per-node, the bucket component is a fixed constant independent of the
identifier — and the enumeration and bulk-removal operations depend on
this: resolving with the empty-string identifier addresses the whole
bucket, so `remove_all_proxy_accs` / `remove_all_withdrawal_reward`
delete exactly the bucket any identifier resolves to, and
`get_peers_price` enumerates it. -/
theorem fixed_bucket_resolvers :
    (∀ a b, (DPNRedisKey.get_price_kf a).1 = (DPNRedisKey.get_price_kf b).1)
    ∧ (∀ a b, (DPNRedisKey.get_proxy_acc_kf a).1 = (DPNRedisKey.get_proxy_acc_kf b).1)
    ∧ (∀ a b, (DPNRedisKey.get_withdrawal_reward_kf a).1
        = (DPNRedisKey.get_withdrawal_reward_kf b).1)
    ∧ (∀ a b, (DPNRedisKey.get_first_time_provider_kf a).1
        = (DPNRedisKey.get_first_time_provider_kf b).1)
    ∧ (∀ a b, (DPNRedisKey.get_completed_8_hours_ot_kf a).1
        = (DPNRedisKey.get_completed_8_hours_ot_kf b).1)
    ∧ (∀ a b, (DPNRedisKey.get_invite_friend_one_time_kf a).1
        = (DPNRedisKey.get_invite_friend_one_time_kf b).1)
    ∧ (∀ a b, (DPNRedisKey.get_completed_time_per_day_kf a).1
        = (DPNRedisKey.get_completed_time_per_day_kf b).1)
    ∧ (∀ a b, (DPNRedisKey.get_uptime_xp_kf a).1 = (DPNRedisKey.get_uptime_xp_kf b).1)
    ∧ (∀ a b, (DPNRedisKey.get_balance_kf a).1 = (DPNRedisKey.get_balance_kf b).1)
    ∧ (∀ a b, (DPNRedisKey.get_user_addr_geo_kf a).1
        = (DPNRedisKey.get_user_addr_geo_kf b).1)
    ∧ (∀ st a, st.faults = [] →
        RedisService.remove_all_proxy_accs st = (.ok (), { st with
          hashes := hashDelBucket st.hashes (DPNRedisKey.get_proxy_acc_kf a).1,
          zsets := st.zsets.filter (fun e => !(e.1 == (DPNRedisKey.get_proxy_acc_kf a).1)),
          expiries := st.expiries.filter
            (fun e => !(e.1 == (DPNRedisKey.get_proxy_acc_kf a).1)) }))
    ∧ (∀ st a, st.faults = [] →
        RedisService.remove_all_withdrawal_reward st = (.ok (), { st with
          hashes := hashDelBucket st.hashes (DPNRedisKey.get_withdrawal_reward_kf a).1,
          zsets := st.zsets.filter
            (fun e => !(e.1 == (DPNRedisKey.get_withdrawal_reward_kf a).1)),
          expiries := st.expiries.filter
            (fun e => !(e.1 == (DPNRedisKey.get_withdrawal_reward_kf a).1)) }))
    ∧ (∀ st a l, st.faults = [] →
        decodeAll deserPrice (bucketFields st.hashes (DPNRedisKey.get_price_kf a).1)
          = some l →
        RedisService.get_peers_price st = (.ok (l.map (·.2)), st)) := by
  refine ⟨fun a b => rfl, fun a b => rfl, fun a b => rfl, fun a b => rfl, fun a b => rfl,
    fun a b => rfl, fun a b => rfl, fun a b => rfl, fun a b => rfl, fun a b => rfl,
    ?_, ?_, ?_⟩
  · intro st a hf
    rw [RedisService.remove_all_proxy_accs, del_nofault st _ hf]
    rfl
  · intro st a hf
    rw [RedisService.remove_all_withdrawal_reward, del_nofault st _ hf]
    rfl
  · intro st a l hf hd
    rw [RedisService.get_peers_price,
      hgetall_nofault deserPrice st (DPNRedisKey.get_price_kf "").1 l hf hd]
